import Mathlib

/-!
Verification development for the go-mcp-pagerduty repository: a shallow
embedding, in Lean 4, of the MCP tool-registration and dispatch layer of the
PagerDuty MCP server (Go), together with theorems checking the natural
language specification against the embedded code.

The embedding mirrors, definition by definition:
  * `internal/tools/utils.go` (argument extraction, `splitAndTrim`),
  * `internal/client/client.go` (request building, credential resolution,
    error policy, pagination),
  * `internal/auth` (middleware, context token, mock authorizer),
  * `internal/server` (tool catalog composition, HTTP front door, health),
  * the per-tool handlers of `internal/tools/*.go`,
  * `internal/models` payload construction (JSON marshalling of the request
    structs, including `omitempty` behaviour).

Go maps from the wire are embedded as association lists, Go `[]byte` JSON
bodies as an explicit JSON value type `J`, fallible calls as `Except`, and
the ambient `context.Context` (which here only ever carries the PagerDuty
override token) as `Option String`.
-/

namespace PD

/-! ## Wire values and argument extraction (internal/tools/utils.go) -/

/-- A value in the untyped argument map decoded from the wire
(`map[string]any` in Go). Tool arguments are strings, numbers or booleans;
`other` stands for any JSON value of a different shape (for which every
Go type assertion in the handlers fails). -/
inductive GoValue where
  | str (s : String)
  | num (n : Int)
  | bool (b : Bool)
  | other
deriving DecidableEq

/-- The argument map of a tool call (`request.Params.Arguments`). -/
abbrev Args := List (String × GoValue)

/-- Map lookup on the argument association list. -/
def lookupArg : Args → String → Option GoValue
  | [], _ => none
  | (k, v) :: rest, key => if k = key then some v else lookupArg rest key

/-- `getString` from utils.go: the value under `key` if it is a string and
non-empty (`v, ok := args[key].(string); ok && v != ""`). -/
def getString (args : Args) (key : String) : Option String :=
  match lookupArg args key with
  | some (.str v) => if v ≠ "" then some v else none
  | _ => none

/-- `getNumber` from utils.go: the value under `key` if it is a number.
Wire numbers (`float64` in Go) are embedded as integers; all handlers use
them through `int(v)`. -/
def getNumber (args : Args) (key : String) : Option Int :=
  match lookupArg args key with
  | some (.num n) => some n
  | _ => none

/-- `getBool` from utils.go: the value under `key` if it is a boolean. -/
def getBool (args : Args) (key : String) : Option Bool :=
  match lookupArg args key with
  | some (.bool b) => some b
  | _ => none

/-! ## splitAndTrim (internal/tools/utils.go) -/

/-- Go's `unicode.IsSpace`: the Unicode White_Space property (the set used
by `strings.TrimSpace`), by code point. -/
def goIsSpace (c : Char) : Bool :=
  let n := c.toNat
  (n == 0x20) || (decide (0x9 ≤ n) && decide (n ≤ 0xD)) || (n == 0x85) ||
  (n == 0xA0) || (n == 0x1680) || (decide (0x2000 ≤ n) && decide (n ≤ 0x200A)) ||
  (n == 0x2028) || (n == 0x2029) || (n == 0x202F) || (n == 0x205F) || (n == 0x3000)

/-- `strings.TrimSpace` on a character list: drop leading and trailing
white space. -/
def trimSpaceList (l : List Char) : List Char :=
  ((l.dropWhile goIsSpace).reverse.dropWhile goIsSpace).reverse

/-- `strings.TrimSpace`. -/
def goTrimSpace (s : String) : String := String.mk (trimSpaceList s.data)

/-- `strings.Split(s, ",")` on a character list: the comma-separated
segments, one more segment than there are commas. -/
def splitCommaAux : List Char → List (List Char)
  | [] => [[]]
  | c :: rest =>
    match splitCommaAux rest with
    | [] => [[]]
    | seg :: segs => if c = ',' then [] :: seg :: segs else (c :: seg) :: segs

/-- `strings.Split(s, ",")`. -/
def goSplitComma (s : String) : List String := (splitCommaAux s.data).map String.mk

/-- `splitAndTrim` from utils.go: split on commas, trim each part, and
append the non-empty results in order (the Go loop over `strings.Split`). -/
def splitAndTrim (s : String) : List String :=
  (goSplitComma s).foldl
    (fun result p =>
      let trimmed := goTrimSpace p
      if trimmed ≠ "" then result ++ [trimmed] else result)
    []

/-! ## JSON values

Request bodies are Go structs marshalled by `encoding/json`. The embedding
represents the marshalled JSON directly: `J.obj` lists the fields in Go
struct declaration order, and fields tagged `omitempty` contribute nothing
when they hold their zero value. -/

/-- A JSON value (the marshalled form of a request body). -/
inductive J where
  | str (s : String)
  | num (n : Int)
  | bool (b : Bool)
  | arr (xs : List J)
  | obj (fields : List (String × J))
  | null

/-! ## HTTP requests of the Backend Gateway (internal/client/client.go) -/

/-- An HTTP method. -/
inductive Method where
  | get
  | post
  | put
  | delete
deriving DecidableEq

/-- The PagerDuty API client (`client.Client`): process-wide default
credential, API host and optional From header, fixed at startup. -/
structure Client where
  apiKey : String
  apiHost : String
  fromEmail : String := ""

/-- The ambient request context, as far as this program uses it: it either
carries a PagerDuty override token (set by the auth middleware) or does
not. `none` is `context.Background()`. -/
abbrev Context := Option String

/-- `context.Background()`: a context carrying no override token. -/
def Context.background : Context := none

/-- `auth.GetPagerDutyToken`: the override token stored in the context, if
present. -/
def GetPagerDutyToken (ctx : Context) : Option String := ctx

/-- `Client.getAPIKey`: the override token from the context when it is
present and non-empty, otherwise the process-wide default key. -/
def Client.getAPIKey (c : Client) (ctx : Context) : String :=
  match GetPagerDutyToken ctx with
  | some token => if token ≠ "" then token else c.apiKey
  | none => c.apiKey

/-- Insertion sort of query keys; `url.Values.Encode` emits keys in sorted
order. -/
def insertSorted (p : String × String) : List (String × String) → List (String × String)
  | [] => [p]
  | q :: rest => if p.1 ≤ q.1 then p :: q :: rest else q :: insertSorted p rest

/-- Sort query parameters by key, as `url.Values.Encode` does. -/
def sortParams : List (String × String) → List (String × String)
  | [] => []
  | p :: rest => insertSorted p (sortParams rest)

/-- Render a query string (`url.Values.Encode`, key-sorted `k=v` pairs
joined by `&`; percent-escaping is not modelled, no claim depends on the
rendered text). -/
def encodeQuery (params : List (String × String)) : String :=
  String.intercalate "&" ((sortParams params).map fun p => p.1 ++ "=" ++ p.2)

/-- `Client.buildURL`: host ++ path, plus `?` and the encoded query when
parameters are present. -/
def Client.buildURL (c : Client) (path : String) (params : List (String × String)) : String :=
  if params.isEmpty then c.apiHost ++ path
  else c.apiHost ++ path ++ "?" ++ encodeQuery params

/-- An outbound HTTP request as constructed by `doRequestWithContext`
(method, URL, marshalled body, and the headers it sets). -/
structure HttpRequest where
  method : Method
  url : String
  body : Option J
  authorization : String
  contentType : String
  accept : String
  userAgent : String
  fromHeader : Option String

/-- An HTTP response from the backend. -/
structure HttpResponse where
  statusCode : Nat
  body : String

/-- The transport: what the network returns for a request. `Except.error`
is a transport-level failure (`httpClient.Do` returning an error). -/
abbrev Transport := HttpRequest → Except String HttpResponse

/-- The request object built by `doRequestWithContext` before the call:
headers `Authorization` (resolved via `getAPIKey` on the given context),
`Content-Type`, `Accept`, `User-Agent`, and `From` when configured. -/
def doRequestBuild (c : Client) (ctx : Context) (m : Method) (url : String)
    (body : Option J) : HttpRequest :=
  { method := m
    url := url
    body := body
    authorization := "Token token=" ++ c.getAPIKey ctx
    contentType := "application/json"
    accept := "application/vnd.pagerduty+json;version=2"
    userAgent := "go-mcp-pagerduty/0.1.0"
    fromHeader := if c.fromEmail ≠ "" then some c.fromEmail else none }

/-- Response handling in `doRequestWithContext`: any status ≥ 400 becomes
an error carrying the status code and the raw body; otherwise the raw body
is returned unmodified. -/
def handleResponse (resp : HttpResponse) : Except String String :=
  if resp.statusCode ≥ 400 then
    .error ("API error (status " ++ toString resp.statusCode ++ "): " ++ resp.body)
  else
    .ok resp.body

/-- `Client.doRequestWithContext`: build the request, run it over the
transport, surface transport failures, then apply the status policy. -/
def doRequestWithContext (c : Client) (ctx : Context) (m : Method) (url : String)
    (body : Option J) (t : Transport) : Except String String :=
  match t (doRequestBuild c ctx m url body) with
  | .error e => .error ("request failed: " ++ e)
  | .ok resp => handleResponse resp

/-- `Client.doRequest`: the context-free variant, which always runs on
`context.Background()` — so it never sees a per-request override token. -/
def doRequest (c : Client) (m : Method) (url : String) (body : Option J)
    (t : Transport) : Except String String :=
  doRequestWithContext c Context.background m url body t

/-- `Client.Get`. -/
def clientGet (c : Client) (path : String) (params : List (String × String))
    (t : Transport) : Except String String :=
  doRequest c .get (c.buildURL path params) none t

/-- `Client.Post`. -/
def clientPost (c : Client) (path : String) (body : J) (t : Transport) : Except String String :=
  doRequest c .post (c.buildURL path []) (some body) t

/-- `Client.Put`. -/
def clientPut (c : Client) (path : String) (body : J) (t : Transport) : Except String String :=
  doRequest c .put (c.buildURL path []) (some body) t

/-- `Client.Delete`. -/
def clientDelete (c : Client) (path : String) (t : Transport) : Except String String :=
  doRequest c .delete (c.buildURL path []) none t

/-- `Client.GetWithContext`. -/
def clientGetWithContext (c : Client) (ctx : Context) (path : String)
    (params : List (String × String)) (t : Transport) : Except String String :=
  doRequestWithContext c ctx .get (c.buildURL path params) none t

/-! ## Pagination helper (`Client.PaginateWithContext`)

One loop iteration observes: the outcome of the GET at the current offset,
then — when the GET succeeded — the per-page callback result on the page
bytes, and the decoded `more` flag of the page. These observations are
abstracted into a `Backend` oracle indexed by offset, so the loop itself
can be embedded as a fuel-indexed recursion whose termination is then
proved under the spec's precondition. -/

/-- What one GET at a given offset yields: a request error, or a page on
which the callback returns a count or an error, and whose `more` field
decodes to the given value (`none` when `json.Unmarshal` fails). -/
inductive PageResult where
  | getErr (e : String)
  | page (handlerResult : Except String Int) (more? : Option Bool)

/-- The backend as seen by the pagination loop, indexed by offset. -/
abbrev Backend := Nat → PageResult

/-- Observable outcome of a pagination run: the offsets of the GETs issued
in order, the number of callback invocations, and the result — `none` when
the fuel ran out, `some none` for normal return, `some (some e)` for an
error return. -/
structure PaginateOut where
  offsets : List Nat
  callbacks : Nat
  result : Option (Option String)

/-- `Client.PaginateWithContext`: starting at offset 0 with fixed limit
100, repeatedly GET the page, run the callback, accumulate its count, stop
with an error when the GET or the callback fails, and break when the
max-result budget (when positive) is reached, the page fails to decode, or
`more` is false; otherwise advance the offset by the limit. The extra fuel
argument only bounds the recursion depth. -/
def paginateLoop (b : Backend) (maxResults : Int) :
    Nat → Nat → Int → PaginateOut
  | 0, _, _ => ⟨[], 0, none⟩
  | fuel + 1, offset, totalFetched =>
    match b offset with
    | .getErr e => ⟨[offset], 0, some (some e)⟩
    | .page (.error e) _ => ⟨[offset], 1, some (some e)⟩
    | .page (.ok count) more? =>
      let tf := totalFetched + count
      if maxResults > 0 ∧ tf ≥ maxResults then ⟨[offset], 1, some none⟩
      else
        match more? with
        | some true =>
          let r := paginateLoop b maxResults fuel (offset + 100) tf
          ⟨offset :: r.offsets, r.callbacks + 1, r.result⟩
        | _ => ⟨[offset], 1, some none⟩

/-- `Client.PaginateWithContext` run from its initial state. -/
def PaginateWithContext (b : Backend) (maxResults : Int) (fuel : Nat) : PaginateOut :=
  paginateLoop b maxResults fuel 0 0

/-- Whether the loop stops (returns or breaks) at the iteration that fires
the GET at `offset` with `totalFetched` already accumulated: the GET or
the callback errored, the budget is reached, the page failed to decode, or
`more` is false. -/
def stopsAt (b : Backend) (maxResults : Int) (offset : Nat) (totalFetched : Int) : Bool :=
  match b offset with
  | .getErr _ => true
  | .page (.error _) _ => true
  | .page (.ok count) more? =>
    (decide (maxResults > 0) && decide (totalFetched + count ≥ maxResults)) ||
    (more? != some true)

/-- The state transition of one non-stopping iteration: offset advances by
the fixed limit 100 and the callback count is accumulated. -/
def nextState (b : Backend) (s : Nat × Int) : Nat × Int :=
  match b s.1 with
  | .page (.ok count) _ => (s.1 + 100, s.2 + count)
  | _ => s

/-- The (offset, totalFetched) state entering iteration `k` of the loop,
starting from offset 0 and an empty accumulator. -/
def iterState (b : Backend) (k : Nat) : Nat × Int :=
  (nextState b)^[k] (0, 0)

/-- The result the loop reports at a stopping page. -/
def stopResult (p : PageResult) : Option String :=
  match p with
  | .getErr e => some e
  | .page (.error e) _ => some e
  | .page (.ok _) _ => none

/-- Callback invocations contributed by the stopping page: none when the
GET itself failed, one otherwise. -/
def stopCallbacks (p : PageResult) : Nat :=
  match p with
  | .getErr _ => 0
  | .page _ _ => 1

/-! ## Authorization middleware and HTTP front door (internal/auth,
internal/server/http.go) -/

/-- The pluggable `auth.Authorizer` capability: token to authorized-or-not,
where `Except.error` is the authorizer itself failing. -/
abbrev Authorizer := String → Except String Bool

/-- `auth.MockAuthorizer`: always authorizes. -/
def MockAuthorizer : Authorizer := fun _ => .ok true

/-- An inbound HTTP request as seen by the middleware and the mux: method,
path, and the two headers the server reads (`Header.Get` returns the empty
string for an absent header). -/
structure InboundRequest where
  method : Method
  path : String
  authorizationHeader : String
  pdTokenHeader : String

/-- What the middleware does with a request: respond immediately with a
status and body, or forward it to the wrapped handler with the given
request context. -/
inductive MWOutcome where
  | respond (status : Nat) (body : String)
  | forward (ctx : Context)

/-- Body written by `http.Error` for a missing Authorization header
(`http.Error` appends a newline). -/
def authRequiredBody : String := "\x7b\"error\":\"Authorization header required\"\x7d\n"

/-- Body written by `http.Error` when the authorizer itself fails. -/
def authFailedBody : String := "\x7b\"error\":\"Authorization failed\"\x7d\n"

/-- Body written by `http.Error` when the authorizer denies the token. -/
def unauthorizedBody : String := "\x7b\"error\":\"Unauthorized\"\x7d\n"

/-- `auth.Middleware`: skip auth for `/health`; reject a missing
Authorization header with 401 before consulting the authorizer; surface an
authorizer failure as 500 and a denial as 401; on success forward the
request, injecting the `X-PagerDuty-Token` header value into the context
when it is non-empty. -/
def Middleware (a : Authorizer) (r : InboundRequest) : MWOutcome :=
  if r.path = "/health" then .forward Context.background
  else if r.authorizationHeader = "" then .respond 401 authRequiredBody
  else
    match a r.authorizationHeader with
    | .error _ => .respond 500 authFailedBody
    | .ok false => .respond 401 unauthorizedBody
    | .ok true =>
      .forward (if r.pdTokenHeader ≠ "" then some r.pdTokenHeader else Context.background)

/-- `server.ServerVersion`. -/
def ServerVersion : String := "0.1.0"

/-- The JSON body of the health response (`healthResponse`). -/
structure HealthBody where
  status : String
  version : String
deriving DecidableEq

/-- What the HTTP front door does with a request after the middleware. -/
inductive HttpOutcome where
  | health (status : Nat) (body : HealthBody)
  | raw (status : Nat) (body : String)
  | rpcHandled (ctx : Context)
deriving DecidableEq

/-- `HTTPServer.handleHealth`: 405 for non-GET, otherwise 200 with
`status = "ok"` and the server version. -/
def handleHealth (r : InboundRequest) : HttpOutcome :=
  if r.method ≠ .get then .raw 405 "\x7b\"error\":\"Method not allowed\"\x7d\n"
  else .health 200 ⟨"ok", ServerVersion⟩

/-- `HTTPServer.handleJSONRPC`: 405 for non-POST, otherwise the body is
handed to the MCP dispatcher with the request context (`rpcHandled` marks
that dispatch happened; the JSON-RPC engine itself is an external
collaborator here). -/
def handleJSONRPC (ctx : Context) (r : InboundRequest) : HttpOutcome :=
  if r.method ≠ .post then .raw 405 "\x7b\"error\":\"Method not allowed\"\x7d\n"
  else .rpcHandled ctx

/-- The assembled HTTP front door of `RunHTTP`: the auth middleware wraps a
mux that routes `/health` to the health handler and everything else to the
JSON-RPC handler. -/
def serveHTTP (a : Authorizer) (r : InboundRequest) : HttpOutcome :=
  match Middleware a r with
  | .respond s b => .raw s b
  | .forward ctx => if r.path = "/health" then handleHealth r else handleJSONRPC ctx r

/-! ## Tool catalog composition (internal/server/server.go) -/

/-- The server configuration (`server.Config`). -/
structure ServerConfig where
  enableWriteTools : Bool

/-- The tool names registered by `registerReadTools`, in registration
order (`RegisterIncidentReadTools` through `RegisterStatusPageReadTools`). -/
def readToolNames : List String :=
  [ "list_incidents", "get_incident", "get_outlier_incident",
    "get_past_incidents", "get_related_incidents", "list_incident_notes",
    "list_services", "get_service",
    "list_teams", "get_team", "list_team_members",
    "get_user_data", "list_users",
    "list_schedules", "get_schedule", "list_schedule_users",
    "list_oncalls",
    "list_escalation_policies", "get_escalation_policy",
    "list_event_orchestrations", "get_event_orchestration",
    "get_event_orchestration_router", "get_event_orchestration_global",
    "get_event_orchestration_service",
    "list_incident_workflows", "get_incident_workflow",
    "list_change_events", "get_change_event",
    "list_service_change_events", "list_incident_change_events",
    "list_alert_grouping_settings", "get_alert_grouping_setting",
    "list_status_pages", "list_status_page_severities",
    "list_status_page_impacts", "list_status_page_statuses",
    "get_status_page_post", "list_status_page_post_updates" ]

/-- The tool names registered by `registerWriteTools`, in registration
order (`RegisterIncidentWriteTools` through
`RegisterStatusPageWriteTools`). -/
def writeToolNames : List String :=
  [ "create_incident", "manage_incidents", "add_responders",
    "add_note_to_incident",
    "create_service", "update_service",
    "create_team", "update_team", "delete_team", "add_team_member",
    "remove_team_member",
    "create_schedule", "create_schedule_override", "update_schedule",
    "update_event_orchestration_router",
    "append_event_orchestration_router_rule",
    "start_incident_workflow",
    "create_alert_grouping_setting", "update_alert_grouping_setting",
    "delete_alert_grouping_setting",
    "create_status_page_post", "create_status_page_post_update" ]

/-- `server.New`: the catalog assembled at startup — read tools are always
registered, write tools only when `EnableWriteTools` is set. The catalog
is a pure function of the configuration; nothing mutates it afterwards. -/
def serverTools (cfg : ServerConfig) : List String :=
  readToolNames ++ (if cfg.enableWriteTools then writeToolNames else [])

/-! ## Tool handlers (internal/tools/*.go)

Each handler is embedded as the argument-processing phase of its Go
counterpart: it validates the arguments and either returns a tool-level
error result (`mcp.NewToolResultError(...)` with `nil` protocol error) or
constructs the first backend request it issues (method, path, query
parameters, marshalled body). `protoFault` corresponds to a handler
returning a non-nil protocol-level error — which no handler in the source
ever does. -/

/-- The backend request a handler hands to the Gateway. -/
structure Req where
  method : Method
  path : String
  params : List (String × String)
  body : Option J

/-- Outcome of a handler's argument-processing phase. -/
inductive Action where
  | toolError (msg : String)
  | protoFault (msg : String)
  | call (r : Req)

/-- Kinds of optional query parameters: string (added when present and
non-empty), number (added as `Sprintf("%d", int(v))` when present), and
boolean (added as `"true"` when present and true — the `earliest`
pattern). -/
inductive PKind where
  | str
  | num
  | boolTrue
deriving DecidableEq

/-- One optional query-parameter clause of a handler: which argument it
reads and which query key it sets. -/
structure PSpec where
  argKey : String
  reqKey : String
  kind : PKind

/-- The contribution of one optional-parameter clause (`if v, ok :=
get...(args, k); ok { params[rk] = ... }`). -/
def pContrib (args : Args) (s : PSpec) : List (String × String) :=
  match s.kind with
  | .str =>
    match getString args s.argKey with
    | some v => [(s.reqKey, v)]
    | none => []
  | .num =>
    match getNumber args s.argKey with
    | some n => [(s.reqKey, toString n)]
    | none => []
  | .boolTrue =>
    match getBool args s.argKey with
    | some true => [(s.reqKey, "true")]
    | _ => []

/-- The query-parameter map built by a handler's sequence of optional
clauses, in source order. -/
def buildParams (args : Args) : List PSpec → List (String × String)
  | [] => []
  | s :: rest => pContrib args s ++ buildParams args rest

/-- A required string argument: error naming the parameter when absent,
empty, or not a string; otherwise continue with the value. -/
def reqStr (args : Args) (key : String) (rest : String → Action) : Action :=
  match getString args key with
  | none => .toolError (key ++ " is required")
  | some v => rest v

/-- Optional string-argument field of a marshalled payload: the field is
set (via `f`) only when the argument is present and non-empty, mirroring
`if v, ok := getString(args, k); ok { ... }` on an `omitempty` field. -/
def optFieldVia (args : Args) (argKey jsonKey : String) (f : String → J) : List (String × J) :=
  match getString args argKey with
  | some v => [(jsonKey, f v)]
  | none => []

/-- Optional `omitempty` integer field: the struct field is set from the
argument when present, and marshalling omits it when it is zero. -/
def optNumNZField (args : Args) (argKey jsonKey : String) : List (String × J) :=
  match getNumber args argKey with
  | some n => if n ≠ 0 then [(jsonKey, J.num n)] else []
  | none => []

/-- Optional `omitempty` boolean field: set from the argument when
present, omitted by marshalling when false. -/
def optBoolTrueField (args : Args) (argKey jsonKey : String) : List (String × J) :=
  match getBool args argKey with
  | some true => [(jsonKey, J.bool true)]
  | _ => []

/-- A `{id, type}` reference object. -/
def refObj (id refType : String) : J :=
  J.obj [("id", J.str id), ("type", J.str refType)]

/-! ### Read-only handlers -/

/-- `listIncidentsHandler` (the `service_ids`, `team_ids` and `user_ids`
parameters declared in the tool schema are not read by the handler). -/
def listIncidentsHandler (args : Args) : Action :=
  .call ⟨.get, "/incidents",
    buildParams args
      [⟨"statuses", "statuses[]", .str⟩, ⟨"date_range", "date_range", .str⟩,
       ⟨"since", "since", .str⟩, ⟨"until", "until", .str⟩,
       ⟨"urgencies", "urgencies[]", .str⟩, ⟨"limit", "limit", .num⟩], none⟩

/-- `getIncidentHandler`. -/
def getIncidentHandler (args : Args) : Action :=
  reqStr args "incident_id" fun incidentID =>
    .call ⟨.get, "/incidents/" ++ incidentID, [], none⟩

/-- `getOutlierIncidentHandler`. -/
def getOutlierIncidentHandler (args : Args) : Action :=
  reqStr args "incident_id" fun incidentID =>
    .call ⟨.get, "/incidents/" ++ incidentID ++ "/outlier_incident",
      buildParams args [⟨"since", "since", .str⟩], none⟩

/-- `getPastIncidentsHandler`. -/
def getPastIncidentsHandler (args : Args) : Action :=
  reqStr args "incident_id" fun incidentID =>
    .call ⟨.get, "/incidents/" ++ incidentID ++ "/past_incidents",
      buildParams args [⟨"limit", "limit", .num⟩], none⟩

/-- `getRelatedIncidentsHandler`. -/
def getRelatedIncidentsHandler (args : Args) : Action :=
  reqStr args "incident_id" fun incidentID =>
    .call ⟨.get, "/incidents/" ++ incidentID ++ "/related_incidents", [], none⟩

/-- `listIncidentNotesHandler`. -/
def listIncidentNotesHandler (args : Args) : Action :=
  reqStr args "incident_id" fun incidentID =>
    .call ⟨.get, "/incidents/" ++ incidentID ++ "/notes", [], none⟩

/-- `listServicesHandler`. -/
def listServicesHandler (args : Args) : Action :=
  .call ⟨.get, "/services",
    buildParams args
      [⟨"query", "query", .str⟩, ⟨"team_ids", "team_ids[]", .str⟩,
       ⟨"limit", "limit", .num⟩], none⟩

/-- `getServiceHandler`. -/
def getServiceHandler (args : Args) : Action :=
  reqStr args "service_id" fun serviceID =>
    .call ⟨.get, "/services/" ++ serviceID, [], none⟩

/-- `listTeamsHandler`. -/
def listTeamsHandler (args : Args) : Action :=
  .call ⟨.get, "/teams",
    buildParams args [⟨"query", "query", .str⟩, ⟨"limit", "limit", .num⟩], none⟩

/-- `getTeamHandler`. -/
def getTeamHandler (args : Args) : Action :=
  reqStr args "team_id" fun teamID =>
    .call ⟨.get, "/teams/" ++ teamID, [], none⟩

/-- `listTeamMembersHandler`. -/
def listTeamMembersHandler (args : Args) : Action :=
  reqStr args "team_id" fun teamID =>
    .call ⟨.get, "/teams/" ++ teamID ++ "/members",
      buildParams args [⟨"limit", "limit", .num⟩], none⟩

/-- `getUserDataHandler` (no arguments). -/
def getUserDataHandler (_args : Args) : Action :=
  .call ⟨.get, "/users/me", [], none⟩

/-- `listUsersHandler`. -/
def listUsersHandler (args : Args) : Action :=
  .call ⟨.get, "/users",
    buildParams args
      [⟨"query", "query", .str⟩, ⟨"team_ids", "team_ids[]", .str⟩,
       ⟨"limit", "limit", .num⟩], none⟩

/-- `listSchedulesHandler`. -/
def listSchedulesHandler (args : Args) : Action :=
  .call ⟨.get, "/schedules",
    buildParams args [⟨"query", "query", .str⟩, ⟨"limit", "limit", .num⟩], none⟩

/-- `getScheduleHandler`. -/
def getScheduleHandler (args : Args) : Action :=
  reqStr args "schedule_id" fun scheduleID =>
    .call ⟨.get, "/schedules/" ++ scheduleID,
      buildParams args [⟨"since", "since", .str⟩, ⟨"until", "until", .str⟩], none⟩

/-- `listScheduleUsersHandler`. -/
def listScheduleUsersHandler (args : Args) : Action :=
  reqStr args "schedule_id" fun scheduleID =>
    .call ⟨.get, "/schedules/" ++ scheduleID ++ "/users",
      buildParams args [⟨"since", "since", .str⟩, ⟨"until", "until", .str⟩], none⟩

/-- `listOncallsHandler`. -/
def listOncallsHandler (args : Args) : Action :=
  .call ⟨.get, "/oncalls",
    buildParams args
      [⟨"time_zone", "time_zone", .str⟩, ⟨"since", "since", .str⟩,
       ⟨"until", "until", .str⟩, ⟨"earliest", "earliest", .boolTrue⟩,
       ⟨"schedule_ids", "schedule_ids[]", .str⟩, ⟨"user_ids", "user_ids[]", .str⟩,
       ⟨"escalation_policy_ids", "escalation_policy_ids[]", .str⟩,
       ⟨"limit", "limit", .num⟩], none⟩

/-- `listEscalationPoliciesHandler`. -/
def listEscalationPoliciesHandler (args : Args) : Action :=
  .call ⟨.get, "/escalation_policies",
    buildParams args
      [⟨"query", "query", .str⟩, ⟨"user_ids", "user_ids[]", .str⟩,
       ⟨"team_ids", "team_ids[]", .str⟩, ⟨"sort_by", "sort_by", .str⟩,
       ⟨"limit", "limit", .num⟩], none⟩

/-- `getEscalationPolicyHandler`. -/
def getEscalationPolicyHandler (args : Args) : Action :=
  reqStr args "escalation_policy_id" fun policyID =>
    .call ⟨.get, "/escalation_policies/" ++ policyID, [], none⟩

/-- `listEventOrchestrationsHandler`. -/
def listEventOrchestrationsHandler (args : Args) : Action :=
  .call ⟨.get, "/event_orchestrations",
    buildParams args [⟨"limit", "limit", .num⟩], none⟩

/-- `getEventOrchestrationHandler`. -/
def getEventOrchestrationHandler (args : Args) : Action :=
  reqStr args "orchestration_id" fun orchestrationID =>
    .call ⟨.get, "/event_orchestrations/" ++ orchestrationID, [], none⟩

/-- `getEventOrchestrationRouterHandler`. -/
def getEventOrchestrationRouterHandler (args : Args) : Action :=
  reqStr args "orchestration_id" fun orchestrationID =>
    .call ⟨.get, "/event_orchestrations/" ++ orchestrationID ++ "/router", [], none⟩

/-- `getEventOrchestrationGlobalHandler`. -/
def getEventOrchestrationGlobalHandler (args : Args) : Action :=
  reqStr args "orchestration_id" fun orchestrationID =>
    .call ⟨.get, "/event_orchestrations/" ++ orchestrationID ++ "/global", [], none⟩

/-- `getEventOrchestrationServiceHandler`. -/
def getEventOrchestrationServiceHandler (args : Args) : Action :=
  reqStr args "service_id" fun serviceID =>
    .call ⟨.get, "/event_orchestrations/services/" ++ serviceID, [], none⟩

/-- `listIncidentWorkflowsHandler`. -/
def listIncidentWorkflowsHandler (args : Args) : Action :=
  .call ⟨.get, "/incident_workflows",
    buildParams args [⟨"query", "query", .str⟩, ⟨"limit", "limit", .num⟩], none⟩

/-- `getIncidentWorkflowHandler`. -/
def getIncidentWorkflowHandler (args : Args) : Action :=
  reqStr args "workflow_id" fun workflowID =>
    .call ⟨.get, "/incident_workflows/" ++ workflowID, [], none⟩

/-- `listChangeEventsHandler`. -/
def listChangeEventsHandler (args : Args) : Action :=
  .call ⟨.get, "/change_events",
    buildParams args
      [⟨"since", "since", .str⟩, ⟨"until", "until", .str⟩,
       ⟨"team_ids", "team_ids[]", .str⟩, ⟨"service_ids", "service_ids[]", .str⟩,
       ⟨"limit", "limit", .num⟩], none⟩

/-- `getChangeEventHandler`. -/
def getChangeEventHandler (args : Args) : Action :=
  reqStr args "change_event_id" fun changeEventID =>
    .call ⟨.get, "/change_events/" ++ changeEventID, [], none⟩

/-- `listServiceChangeEventsHandler`. -/
def listServiceChangeEventsHandler (args : Args) : Action :=
  reqStr args "service_id" fun serviceID =>
    .call ⟨.get, "/services/" ++ serviceID ++ "/change_events",
      buildParams args
        [⟨"since", "since", .str⟩, ⟨"until", "until", .str⟩,
         ⟨"limit", "limit", .num⟩], none⟩

/-- `listIncidentChangeEventsHandler`. -/
def listIncidentChangeEventsHandler (args : Args) : Action :=
  reqStr args "incident_id" fun incidentID =>
    .call ⟨.get, "/incidents/" ++ incidentID ++ "/related_change_events",
      buildParams args [⟨"limit", "limit", .num⟩], none⟩

/-- `listAlertGroupingSettingsHandler`. -/
def listAlertGroupingSettingsHandler (args : Args) : Action :=
  .call ⟨.get, "/alert_grouping_settings",
    buildParams args
      [⟨"service_ids", "service_ids[]", .str⟩, ⟨"limit", "limit", .num⟩], none⟩

/-- `getAlertGroupingSettingHandler`. -/
def getAlertGroupingSettingHandler (args : Args) : Action :=
  reqStr args "setting_id" fun settingID =>
    .call ⟨.get, "/alert_grouping_settings/" ++ settingID, [], none⟩

/-- `listStatusPagesHandler`. -/
def listStatusPagesHandler (args : Args) : Action :=
  .call ⟨.get, "/status_pages",
    buildParams args [⟨"limit", "limit", .num⟩], none⟩

/-- `listStatusPageSeveritiesHandler`. -/
def listStatusPageSeveritiesHandler (args : Args) : Action :=
  reqStr args "status_page_id" fun statusPageID =>
    .call ⟨.get, "/status_pages/" ++ statusPageID ++ "/severities", [], none⟩

/-- `listStatusPageImpactsHandler`. -/
def listStatusPageImpactsHandler (args : Args) : Action :=
  reqStr args "status_page_id" fun statusPageID =>
    .call ⟨.get, "/status_pages/" ++ statusPageID ++ "/impacts", [], none⟩

/-- `listStatusPageStatusesHandler`. -/
def listStatusPageStatusesHandler (args : Args) : Action :=
  reqStr args "status_page_id" fun statusPageID =>
    .call ⟨.get, "/status_pages/" ++ statusPageID ++ "/statuses", [], none⟩

/-- `getStatusPagePostHandler`. -/
def getStatusPagePostHandler (args : Args) : Action :=
  reqStr args "status_page_id" fun statusPageID =>
    reqStr args "post_id" fun postID =>
      .call ⟨.get, "/status_pages/" ++ statusPageID ++ "/posts/" ++ postID, [], none⟩

/-- `listStatusPagePostUpdatesHandler`. -/
def listStatusPagePostUpdatesHandler (args : Args) : Action :=
  reqStr args "status_page_id" fun statusPageID =>
    reqStr args "post_id" fun postID =>
      .call ⟨.get,
        "/status_pages/" ++ statusPageID ++ "/posts/" ++ postID ++ "/post_updates",
        [], none⟩

/-! ### Write handlers -/

/-- `createIncidentHandler`: POST `/incidents` with the marshalled
`IncidentCreateRequest` (struct field order: type, title, service,
urgency, body, incident_key; `omitempty` fields only when set). -/
def createIncidentHandler (args : Args) : Action :=
  reqStr args "title" fun title =>
    reqStr args "service_id" fun serviceID =>
      .call ⟨.post, "/incidents", [],
        some (J.obj [("incident", J.obj (
          [("type", J.str "incident"), ("title", J.str title),
           ("service", refObj serviceID "service_reference")]
          ++ optFieldVia args "urgency" "urgency" J.str
          ++ optFieldVia args "body" "body"
               (fun v => J.obj [("type", J.str "incident_body"), ("details", J.str v)])
          ++ optFieldVia args "incident_key" "incident_key" J.str))])⟩

/-- `models.IncidentManageRequest`. -/
structure IncidentManageRequest where
  incidentIDs : List String
  status : String := ""
  urgency : String := ""
  assignment : Option String := none
  escalationLevel : Int := 0

/-- One entry of the `ToAPIPayload` incidents array: the reference fields
plus exactly the sparse changes set on the request, identical for every
id; `now` is `time.Now().Format(time.RFC3339)` at the assignment site. -/
def manageEntry (now : String) (r : IncidentManageRequest) (id : String) : J :=
  J.obj ([("type", J.str "incident_reference"), ("id", J.str id)]
    ++ (if r.status ≠ "" then [("status", J.str r.status)] else [])
    ++ (if r.urgency ≠ "" then [("urgency", J.str r.urgency)] else [])
    ++ (if r.escalationLevel > 0 then [("escalation_level", J.num r.escalationLevel)] else [])
    ++ (match r.assignment with
        | some uid =>
          [("assignments", J.arr [J.obj
            [("at", J.str now),
             ("assignee", J.obj [("type", J.str "user_reference"), ("id", J.str uid)])]])]
        | none => []))

/-- `IncidentManageRequest.ToAPIPayload` (models/incidents.go): one
composite payload with one entry per incident id, in order. -/
def ToAPIPayload (now : String) (r : IncidentManageRequest) : J :=
  J.obj [("incidents", J.arr (r.incidentIDs.map (manageEntry now r)))]

/-- `manageIncidentsHandler`: one PUT to `/incidents` with the composite
payload over the comma-split incident ids. -/
def manageIncidentsHandler (now : String) (args : Args) : Action :=
  reqStr args "incident_ids" fun incidentIDsStr =>
    let req : IncidentManageRequest :=
      { incidentIDs := splitAndTrim incidentIDsStr
        status := (getString args "status").getD ""
        urgency := (getString args "urgency").getD ""
        assignment := getString args "assignee_id"
        escalationLevel := (getNumber args "escalation_level").getD 0 }
    .call ⟨.put, "/incidents", [], some (ToAPIPayload now req)⟩

/-- `addRespondersHandler`. -/
def addRespondersHandler (args : Args) : Action :=
  reqStr args "incident_id" fun incidentID =>
    reqStr args "responder_ids" fun responderIDsStr =>
      let targets := (splitAndTrim responderIDsStr).map fun id =>
        J.obj [("responder_request_target_type", J.str "user_reference"),
               ("id", J.str id)]
      .call ⟨.post, "/incidents/" ++ incidentID ++ "/responder_requests", [],
        some (J.obj (optFieldVia args "message" "message" J.str
          ++ [("responder_request_targets", J.arr targets)]))⟩

/-- `addNoteToIncidentHandler`. -/
def addNoteToIncidentHandler (args : Args) : Action :=
  reqStr args "incident_id" fun incidentID =>
    reqStr args "note" fun note =>
      .call ⟨.post, "/incidents/" ++ incidentID ++ "/notes", [],
        some (J.obj [("note", J.obj [("content", J.str note)])])⟩

/-- `createServiceHandler`. -/
def createServiceHandler (args : Args) : Action :=
  reqStr args "name" fun name =>
    reqStr args "escalation_policy_id" fun escalationPolicyID =>
      .call ⟨.post, "/services", [],
        some (J.obj [("service", J.obj (
          [("type", J.str "service"), ("name", J.str name)]
          ++ optFieldVia args "description" "description" J.str
          ++ [("escalation_policy", refObj escalationPolicyID "escalation_policy_reference")]))])⟩

/-- `updateServiceHandler`. -/
def updateServiceHandler (args : Args) : Action :=
  reqStr args "service_id" fun serviceID =>
    .call ⟨.put, "/services/" ++ serviceID, [],
      some (J.obj [("service", J.obj (
        [("type", J.str "service")]
        ++ optFieldVia args "name" "name" J.str
        ++ optFieldVia args "description" "description" J.str
        ++ optFieldVia args "escalation_policy_id" "escalation_policy"
             (fun v => refObj v "escalation_policy_reference")))])⟩

/-- `createTeamHandler`. -/
def createTeamHandler (args : Args) : Action :=
  reqStr args "name" fun name =>
    .call ⟨.post, "/teams", [],
      some (J.obj [("team", J.obj (
        [("type", J.str "team"), ("name", J.str name)]
        ++ optFieldVia args "description" "description" J.str))])⟩

/-- `updateTeamHandler`. -/
def updateTeamHandler (args : Args) : Action :=
  reqStr args "team_id" fun teamID =>
    .call ⟨.put, "/teams/" ++ teamID, [],
      some (J.obj [("team", J.obj (
        [("type", J.str "team")]
        ++ optFieldVia args "name" "name" J.str
        ++ optFieldVia args "description" "description" J.str))])⟩

/-- `deleteTeamHandler`. -/
def deleteTeamHandler (args : Args) : Action :=
  reqStr args "team_id" fun teamID =>
    .call ⟨.delete, "/teams/" ++ teamID, [], none⟩

/-- `addTeamMemberHandler`: PUT with the marshalled `TeamMemberAdd`
(an object holding only the optional role). -/
def addTeamMemberHandler (args : Args) : Action :=
  reqStr args "team_id" fun teamID =>
    reqStr args "user_id" fun userID =>
      .call ⟨.put, "/teams/" ++ teamID ++ "/users/" ++ userID, [],
        some (J.obj (optFieldVia args "role" "role" J.str))⟩

/-- `removeTeamMemberHandler`. -/
def removeTeamMemberHandler (args : Args) : Action :=
  reqStr args "team_id" fun teamID =>
    reqStr args "user_id" fun userID =>
      .call ⟨.delete, "/teams/" ++ teamID ++ "/users/" ++ userID, [], none⟩

/-- `createScheduleHandler` (the schedule is created with an empty layer
list; `schedule_layers` has no `omitempty`). -/
def createScheduleHandler (args : Args) : Action :=
  reqStr args "name" fun name =>
    reqStr args "time_zone" fun timeZone =>
      .call ⟨.post, "/schedules", [],
        some (J.obj [("schedule", J.obj (
          [("type", J.str "schedule"), ("name", J.str name)]
          ++ optFieldVia args "description" "description" J.str
          ++ [("time_zone", J.str timeZone), ("schedule_layers", J.arr [])]))])⟩

/-- `createScheduleOverrideHandler`. -/
def createScheduleOverrideHandler (args : Args) : Action :=
  reqStr args "schedule_id" fun scheduleID =>
    reqStr args "user_id" fun userID =>
      reqStr args "start" fun start =>
        reqStr args "end" fun «end» =>
          .call ⟨.post, "/schedules/" ++ scheduleID ++ "/overrides", [],
            some (J.obj [("override", J.obj
              [("start", J.str start), ("end", J.str «end»),
               ("user", refObj userID "user_reference")])])⟩

/-- `updateScheduleHandler`. -/
def updateScheduleHandler (args : Args) : Action :=
  reqStr args "schedule_id" fun scheduleID =>
    .call ⟨.put, "/schedules/" ++ scheduleID, [],
      some (J.obj [("schedule", J.obj (
        [("type", J.str "schedule")]
        ++ optFieldVia args "name" "name" J.str
        ++ optFieldVia args "description" "description" J.str
        ++ optFieldVia args "time_zone" "time_zone" J.str))])⟩

/-- `startIncidentWorkflowHandler`. -/
def startIncidentWorkflowHandler (args : Args) : Action :=
  reqStr args "workflow_id" fun workflowID =>
    reqStr args "incident_id" fun incidentID =>
      .call ⟨.post, "/incident_workflows/" ++ workflowID ++ "/instances", [],
        some (J.obj [("incident_workflow_instance", J.obj
          [("incident", refObj incidentID "incident_reference"),
           ("workflow", refObj workflowID "incident_workflow_reference")])])⟩

/-- `createAlertGroupingSettingHandler`: the service-id list is
comma-split, the config carries the grouping type and, when a non-zero
timeout argument was given, the timeout (`omitempty` int). -/
def createAlertGroupingSettingHandler (args : Args) : Action :=
  reqStr args "name" fun name =>
    reqStr args "service_ids" fun serviceIDsStr =>
      reqStr args "type" fun groupingType =>
        let services := (splitAndTrim serviceIDsStr).map fun id =>
          refObj id "service_reference"
        let timeout := (getNumber args "timeout").getD 0
        .call ⟨.post, "/alert_grouping_settings", [],
          some (J.obj [("alert_grouping_setting", J.obj
            [("type", J.str "alert_grouping_setting"), ("name", J.str name),
             ("services", J.arr services),
             ("config", J.obj ([("type", J.str groupingType)]
               ++ (if timeout ≠ 0 then [("timeout", J.num timeout)] else [])))])])⟩

/-- The `config` field of `updateAlertGroupingSettingHandler`: present
when a type or timeout argument was given; the config's `type` field has
no `omitempty` and so appears (possibly empty), the timeout is omitted
when zero. -/
def updateAlertGroupingConfigFields (args : Args) : List (String × J) :=
  match getString args "type", getNumber args "timeout" with
  | none, none => []
  | some t, none => [("config", J.obj [("type", J.str t)])]
  | none, some n =>
    [("config", J.obj ([("type", J.str "")]
      ++ (if n ≠ 0 then [("timeout", J.num n)] else [])))]
  | some t, some n =>
    [("config", J.obj ([("type", J.str t)]
      ++ (if n ≠ 0 then [("timeout", J.num n)] else [])))]

/-- `updateAlertGroupingSettingHandler`. -/
def updateAlertGroupingSettingHandler (args : Args) : Action :=
  reqStr args "setting_id" fun settingID =>
    .call ⟨.put, "/alert_grouping_settings/" ++ settingID, [],
      some (J.obj [("alert_grouping_setting", J.obj (
        [("type", J.str "alert_grouping_setting")]
        ++ optFieldVia args "name" "name" J.str
        ++ updateAlertGroupingConfigFields args))])⟩

/-- `deleteAlertGroupingSettingHandler`. -/
def deleteAlertGroupingSettingHandler (args : Args) : Action :=
  reqStr args "setting_id" fun settingID =>
    .call ⟨.delete, "/alert_grouping_settings/" ++ settingID, [], none⟩

/-- `createStatusPagePostHandler` (marshalled field order: type,
post_type, title, starts_at, ends_at, status, severity). -/
def createStatusPagePostHandler (args : Args) : Action :=
  reqStr args "status_page_id" fun statusPageID =>
    reqStr args "post_type" fun postType =>
      reqStr args "title" fun title =>
        .call ⟨.post, "/status_pages/" ++ statusPageID ++ "/posts", [],
          some (J.obj [("post", J.obj (
            [("type", J.str "status_page_post"), ("post_type", J.str postType),
             ("title", J.str title)]
            ++ optFieldVia args "starts_at" "starts_at" J.str
            ++ optFieldVia args "ends_at" "ends_at" J.str
            ++ optFieldVia args "status_id" "status"
                 (fun v => refObj v "status_page_status_reference")
            ++ optFieldVia args "severity_id" "severity"
                 (fun v => refObj v "status_page_severity_reference")))])⟩

/-- `createStatusPagePostUpdateHandler`. -/
def createStatusPagePostUpdateHandler (args : Args) : Action :=
  reqStr args "status_page_id" fun statusPageID =>
    reqStr args "post_id" fun postID =>
      reqStr args "message" fun message =>
        .call ⟨.post,
          "/status_pages/" ++ statusPageID ++ "/posts/" ++ postID ++ "/post_updates",
          [],
          some (J.obj [("post_update", J.obj (
            [("type", J.str "status_page_post_update"), ("message", J.str message)]
            ++ optFieldVia args "status_id" "status"
                 (fun v => refObj v "status_page_status_reference")
            ++ optFieldVia args "severity_id" "severity"
                 (fun v => refObj v "status_page_severity_reference")
            ++ optBoolTrueField args "notify_subscribers" "notify_subscribers"))])⟩

/-! ### Event orchestration router (models and the two write handlers) -/

/-- `models.EventOrchestrationRuleCondition`. -/
structure EventOrchestrationRuleCondition where
  expression : String
deriving DecidableEq

/-- `models.AutomationAction`. -/
structure AutomationAction where
  actionID : String
deriving DecidableEq

/-- `models.OrchestrationVariable`. -/
structure OrchestrationVariable where
  name : String
  path : String
  varType : String
  value : String := ""
deriving DecidableEq

/-- `models.OrchestrationExtraction`. -/
structure OrchestrationExtraction where
  target : String
  template : String := ""
  regex : String := ""
  source : String := ""
deriving DecidableEq

/-- `models.CustomFieldUpdate`. -/
structure CustomFieldUpdate where
  id : String
  value : String
deriving DecidableEq

/-- `models.EventOrchestrationRuleActions`. -/
structure EventOrchestrationRuleActions where
  routeTo : String := ""
  severity : String := ""
  eventAction : String := ""
  vars : List OrchestrationVariable := []
  extractions : List OrchestrationExtraction := []
  dropEvent : Bool := false
  suppress : Bool := false
  suspend : Option Int := none
  priority : String := ""
  annotate : String := ""
  pagerdutyAutomationActions : List AutomationAction := []
  automationActions : List AutomationAction := []
  incidentCustomFieldUpdates : List CustomFieldUpdate := []
deriving DecidableEq

/-- `models.EventOrchestrationRule`. -/
structure EventOrchestrationRule where
  id : String := ""
  label : String := ""
  conditions : List EventOrchestrationRuleCondition := []
  actions : EventOrchestrationRuleActions
  disabled : Bool := false
deriving DecidableEq

/-- `models.EventOrchestrationRuleSet`. -/
structure EventOrchestrationRuleSet where
  id : String
  rules : List EventOrchestrationRule
deriving DecidableEq

/-- `models.EventOrchestrationCatchAll`. -/
structure EventOrchestrationCatchAll where
  actions : EventOrchestrationRuleActions
deriving DecidableEq

/-- `models.EventOrchestrationRouter`: the state fetched by the router
GET. The `parent` object is an opaque nested document here (it is read
from the backend and never transmitted back, since the update payload type
has no parent field). -/
structure EventOrchestrationRouter where
  id : String := ""
  routerType : String := ""
  self : String := ""
  parent : Option J := none
  sets : List EventOrchestrationRuleSet := []
  catchAll : Option EventOrchestrationCatchAll := none

/-- `models.EventOrchestrationPath`: the payload shape of a router
update. -/
structure EventOrchestrationPath where
  pathType : String := ""
  sets : List EventOrchestrationRuleSet := []
  catchAll : Option EventOrchestrationCatchAll := none
deriving DecidableEq

/-- `models.EventOrchestrationRouterUpdateRequest`. -/
structure EventOrchestrationRouterUpdateRequest where
  orchestrationPath : EventOrchestrationPath
deriving DecidableEq

/-- A string field tagged `omitempty`: contributes nothing when empty. -/
def encodeStrOmitempty (key v : String) : List (String × J) :=
  if v ≠ "" then [(key, J.str v)] else []

/-- A boolean field tagged `omitempty`: contributes nothing when false. -/
def encodeBoolOmitempty (key : String) (b : Bool) : List (String × J) :=
  if b then [(key, J.bool true)] else []

/-- A slice field tagged `omitempty`: contributes nothing when empty. -/
def encodeListOmitempty (key : String) (xs : List J) : List (String × J) :=
  if xs.isEmpty then [] else [(key, J.arr xs)]

/-- Marshalled `OrchestrationVariable`. -/
def encodeVariable (v : OrchestrationVariable) : J :=
  J.obj ([("name", J.str v.name), ("path", J.str v.path), ("type", J.str v.varType)]
    ++ encodeStrOmitempty "value" v.value)

/-- Marshalled `OrchestrationExtraction`. -/
def encodeExtraction (e : OrchestrationExtraction) : J :=
  J.obj ([("target", J.str e.target)]
    ++ encodeStrOmitempty "template" e.template
    ++ encodeStrOmitempty "regex" e.regex
    ++ encodeStrOmitempty "source" e.source)

/-- Marshalled `AutomationAction`. -/
def encodeAutomationAction (a : AutomationAction) : J :=
  J.obj [("action_id", J.str a.actionID)]

/-- Marshalled `CustomFieldUpdate`. -/
def encodeCustomFieldUpdate (u : CustomFieldUpdate) : J :=
  J.obj [("id", J.str u.id), ("value", J.str u.value)]

/-- Marshalled `EventOrchestrationRuleActions` (every field `omitempty`
except none — all are tagged `omitempty`). -/
def encodeActions (a : EventOrchestrationRuleActions) : J :=
  J.obj (encodeStrOmitempty "route_to" a.routeTo
    ++ encodeStrOmitempty "severity" a.severity
    ++ encodeStrOmitempty "event_action" a.eventAction
    ++ encodeListOmitempty "variables" (a.vars.map encodeVariable)
    ++ encodeListOmitempty "extractions" (a.extractions.map encodeExtraction)
    ++ encodeBoolOmitempty "drop_event" a.dropEvent
    ++ encodeBoolOmitempty "suppress" a.suppress
    ++ (match a.suspend with | some n => [("suspend", J.num n)] | none => [])
    ++ encodeStrOmitempty "priority" a.priority
    ++ encodeStrOmitempty "annotate" a.annotate
    ++ encodeListOmitempty "pagerduty_automation_actions"
         (a.pagerdutyAutomationActions.map encodeAutomationAction)
    ++ encodeListOmitempty "automation_actions"
         (a.automationActions.map encodeAutomationAction)
    ++ encodeListOmitempty "incident_custom_field_updates"
         (a.incidentCustomFieldUpdates.map encodeCustomFieldUpdate))

/-- Marshalled `EventOrchestrationRuleCondition`. -/
def encodeCondition (c : EventOrchestrationRuleCondition) : J :=
  J.obj [("expression", J.str c.expression)]

/-- Marshalled `EventOrchestrationRule` (the `actions` field has no
`omitempty` and is always present). -/
def encodeRule (r : EventOrchestrationRule) : J :=
  J.obj (encodeStrOmitempty "id" r.id
    ++ encodeStrOmitempty "label" r.label
    ++ encodeListOmitempty "conditions" (r.conditions.map encodeCondition)
    ++ [("actions", encodeActions r.actions)]
    ++ encodeBoolOmitempty "disabled" r.disabled)

/-- Marshalled `EventOrchestrationRuleSet`. -/
def encodeRuleSet (s : EventOrchestrationRuleSet) : J :=
  J.obj ([("id", J.str s.id)]
    ++ encodeListOmitempty "rules" (s.rules.map encodeRule))

/-- Marshalled `EventOrchestrationCatchAll`. -/
def encodeCatchAll (c : EventOrchestrationCatchAll) : J :=
  J.obj [("actions", encodeActions c.actions)]

/-- Marshalled `EventOrchestrationPath`. -/
def encodePath (p : EventOrchestrationPath) : J :=
  J.obj (encodeStrOmitempty "type" p.pathType
    ++ encodeListOmitempty "sets" (p.sets.map encodeRuleSet)
    ++ (match p.catchAll with | some ca => [("catch_all", encodeCatchAll ca)] | none => []))

/-- Marshalled `EventOrchestrationRouterUpdateRequest`. -/
def encodeRouterUpdate (u : EventOrchestrationRouterUpdateRequest) : J :=
  J.obj [("orchestration_path", encodePath u.orchestrationPath)]

/-- `updateEventOrchestrationRouterHandler`: the `config` argument is
parsed as JSON (the `json.Unmarshal` collaborator is the `parseConfig`
parameter) and PUT back verbatim as the full router configuration. -/
def updateEventOrchestrationRouterHandler
    (parseConfig : String → Except String EventOrchestrationRouterUpdateRequest)
    (args : Args) : Action :=
  reqStr args "orchestration_id" fun orchestrationID =>
    reqStr args "config" fun configStr =>
      match parseConfig configStr with
      | .error e => .toolError ("invalid config JSON: " ++ toString e)
      | .ok config =>
        .call ⟨.put, "/event_orchestrations/" ++ orchestrationID ++ "/router", [],
          some (encodeRouterUpdate config)⟩

/-- `appendEventOrchestrationRouterRuleHandler`: GET the current router
state (the `routerGet` collaborator, indexed by the GET path), append one
new rule — with the supplied route_to action, and optional label and
parsed conditions — to the first rule set, and PUT the whole structure
back with the fetched `catch_all` untouched. -/
def appendEventOrchestrationRouterRuleHandler
    (routerGet : String → Except String EventOrchestrationRouter)
    (parseConditions : String → Except String (List EventOrchestrationRuleCondition))
    (args : Args) : Action :=
  reqStr args "orchestration_id" fun orchestrationID =>
    reqStr args "route_to" fun routeTo =>
      match routerGet ("/event_orchestrations/" ++ orchestrationID ++ "/router") with
      | .error e => .toolError ("failed to get current router: " ++ toString e)
      | .ok current =>
        let rule0 : EventOrchestrationRule :=
          { label := (getString args "label").getD ""
            actions := { routeTo := routeTo } }
        let finish := fun (newRule : EventOrchestrationRule) =>
          let sets :=
            match current.sets with
            | [] => []
            | s :: rest => { s with rules := s.rules ++ [newRule] } :: rest
          Action.call ⟨.put, "/event_orchestrations/" ++ orchestrationID ++ "/router", [],
            some (encodeRouterUpdate
              ⟨{ pathType := "", sets := sets, catchAll := current.catchAll }⟩)⟩
        match getString args "conditions" with
        | none => finish rule0
        | some v =>
          match parseConditions v with
          | .error e => .toolError ("invalid conditions JSON: " ++ toString e)
          | .ok conds => finish { rule0 with conditions := conds }

/-! ### The backend request issued by a handler through the context-free
client path (used to settle the credential-override claim) -/

/-- The query parameters `listUsersHandler` builds. -/
def listUsersParams (args : Args) : List (String × String) :=
  buildParams args
    [⟨"query", "query", .str⟩, ⟨"team_ids", "team_ids[]", .str⟩,
     ⟨"limit", "limit", .num⟩]

/-- The HTTP request that `listUsersHandler` causes the Gateway to send:
the handler receives the per-request context `ctx` but calls
`c.GetJSON("/users", ...)`, which goes through `doRequest` and therefore
builds the request on `context.Background()` — `ctx` is unused. -/
def listUsersBackendRequest (c : Client) (_ctx : Context) (args : Args) : HttpRequest :=
  doRequestBuild c Context.background .get
    (c.buildURL "/users" (listUsersParams args)) none

/-! ### Validation contract predicates

The uniform shape of the argument-validation contract: a handler whose
`k`-th required parameter is absent (or empty, or not a string) while the
earlier required parameters are present returns the tool-level error
naming that parameter. -/

/-- The handler rejects a call whose first required parameter is missing,
naming it. -/
def requiredFirst (h : Args → Action) (k : String) : Prop :=
  ∀ args : Args, getString args k = none →
    h args = .toolError (k ++ " is required")

/-- The handler rejects a call whose second required parameter is missing
(the first being present), naming it. -/
def requiredSecond (h : Args → Action) (k₁ k₂ : String) : Prop :=
  ∀ (args : Args) (v₁ : String), getString args k₁ = some v₁ →
    getString args k₂ = none →
    h args = .toolError (k₂ ++ " is required")

/-- The handler rejects a call whose third required parameter is missing
(the first two being present), naming it. -/
def requiredThird (h : Args → Action) (k₁ k₂ k₃ : String) : Prop :=
  ∀ (args : Args) (v₁ v₂ : String), getString args k₁ = some v₁ →
    getString args k₂ = some v₂ → getString args k₃ = none →
    h args = .toolError (k₃ ++ " is required")

/-- The handler rejects a call whose fourth required parameter is missing
(the first three being present), naming it. -/
def requiredFourth (h : Args → Action) (k₁ k₂ k₃ k₄ : String) : Prop :=
  ∀ (args : Args) (v₁ v₂ v₃ : String), getString args k₁ = some v₁ →
    getString args k₂ = some v₂ → getString args k₃ = some v₃ →
    getString args k₄ = none →
    h args = .toolError (k₄ ++ " is required")

/-! ### Concrete fixtures used by witness theorems -/

/-- A backend for the pagination witness: every page carries 5 records and
reports `more = false`. -/
def witnessBackend : Backend := fun _ => .page (.ok 5) (some false)

/-- A fetched router state for the append-rule witness: one rule set with
no rules, and a catch-all routing to `P0DEFLT`. -/
def witnessRouter : EventOrchestrationRouter :=
  { sets := [⟨"set-1", []⟩]
    catchAll := some ⟨{ routeTo := "P0DEFLT" }⟩ }

/-- A router GET collaborator returning `witnessRouter`. -/
def witnessRouterGet : String → Except String EventOrchestrationRouter :=
  fun _ => .ok witnessRouter

/-- A conditions parser that always fails; the witness scenarios never
parse conditions. -/
def witnessParseConditions : String → Except String (List EventOrchestrationRuleCondition) :=
  fun _ => .error "unused"

/-- A transport for the gateway witness: every request gets a 404 with
body `not found`. -/
def witnessTransport : Transport := fun _ => .ok ⟨404, "not found"⟩

/-- A client fixture. -/
def witnessClient : Client :=
  { apiKey := "default-key", apiHost := "https://api.pagerduty.com" }

/-- An authorizer whose own evaluation fails. -/
def failingAuthorizer : Authorizer := fun _ => .error "auth backend down"

/-- An authorizer that denies every token. -/
def denyingAuthorizer : Authorizer := fun _ => .ok false

/-! # Theorems -/

/-! ## Helper lemmas about argument extraction -/

theorem getString_ne_empty {args : Args} {k v : String}
    (h : getString args k = some v) : v ≠ "" := by
  unfold getString at h
  split at h
  · split_ifs at h with hs
    · injection h with h2
      subst h2
      exact hs
  · cases h

theorem reqStr_missing {args : Args} {k : String} (rest : String → Action)
    (h : getString args k = none) :
    reqStr args k rest = .toolError (k ++ " is required") := by
  unfold reqStr
  rw [h]

theorem reqStr_found {args : Args} {k v : String} (rest : String → Action)
    (h : getString args k = some v) : reqStr args k rest = rest v := by
  unfold reqStr
  rw [h]

/-! ## C1: the write-policy gate on the tool catalog -/

theorem write_tools_not_read_tools : ∀ w ∈ writeToolNames, w ∉ readToolNames := by
  decide

/-- C1: the catalog assembled at startup contains each write-capable tool
(each tool registered by `registerWriteTools`) if and only if
`Config.EnableWriteTools` was true at composition time, while every
read-only tool is registered unconditionally. The catalog `serverTools` is
a pure function of the startup configuration, so no later operation can
extend it. -/
theorem catalog_write_tools_iff_flag (cfg : ServerConfig) :
    (∀ w ∈ writeToolNames, (w ∈ serverTools cfg ↔ cfg.enableWriteTools = true)) ∧
    (∀ r ∈ readToolNames, r ∈ serverTools cfg) := by
  constructor
  · intro w hw
    constructor
    · intro hmem
      cases hcfg : cfg.enableWriteTools with
      | true => rfl
      | false =>
        exfalso
        unfold serverTools at hmem
        rw [hcfg] at hmem
        simp only [if_neg Bool.false_ne_true, List.append_nil] at hmem
        exact write_tools_not_read_tools w hw hmem
    · intro hcfg
      unfold serverTools
      rw [hcfg]
      simp only [if_pos rfl]
      exact List.mem_append_right _ hw
  · intro r hr
    unfold serverTools
    exact List.mem_append_left _ hr

theorem catalog_write_tools_iff_flag_witness :
    ("create_incident" ∈ serverTools ⟨true⟩) ∧
    ("create_incident" ∉ serverTools ⟨false⟩) ∧
    ("list_incidents" ∈ serverTools ⟨false⟩) := by
  refine ⟨?_, ?_, ?_⟩
  · exact ((catalog_write_tools_iff_flag ⟨true⟩).1 "create_incident" (by decide)).2 rfl
  · intro hmem
    have hflag :=
      ((catalog_write_tools_iff_flag ⟨false⟩).1 "create_incident" (by decide)).1 hmem
    cases hflag
  · exact (catalog_write_tools_iff_flag ⟨false⟩).2 "list_incidents" (by decide)

/-! ## C2: the credential override never reaches the Gateway calls -/

/-- C2 (code-bug evaluation): every Gateway call made by
`listUsersHandler` is issued through the context-free `GetJSON` path and
therefore carries the process default key — even when the request context
holds an override token that `getAPIKey` would have preferred had the
handler threaded its context. The last conjunct shows the middleware does
inject the override into the context, so the override is dropped between
the middleware and the Gateway. -/
theorem override_token_dropped_by_handler :
    (∀ (c : Client) (ctx : Context) (args : Args),
      (listUsersBackendRequest c ctx args).authorization = "Token token=" ++ c.apiKey) ∧
    (witnessClient.getAPIKey (some "override-token") = "override-token") ∧
    ((listUsersBackendRequest witnessClient (some "override-token") []).authorization
        = "Token token=default-key") ∧
    ((listUsersBackendRequest witnessClient (some "override-token") []).authorization
        ≠ "Token token=override-token") ∧
    (Middleware MockAuthorizer
        { method := .post, path := "/", authorizationHeader := "Bearer x",
          pdTokenHeader := "override-token" } = .forward (some "override-token")) := by
  refine ⟨fun c ctx args => rfl, rfl, rfl, ?_, rfl⟩
  decide

/-! ## C6: the Gateway error policy on HTTP statuses -/

/-- C6: a Gateway request whose transport produced a response errors
exactly when the status is ≥ 400; the error message is exactly
`API error (status <code>): <body>` (so it contains the numeric status
code and the raw backend body verbatim), and for statuses < 400 the raw
body bytes are returned unmodified. All of `Get/Post/Put/Delete` and
their context variants go through `doRequestWithContext`. -/
theorem gateway_error_iff_status_ge_400 (c : Client) (ctx : Context) (m : Method)
    (url : String) (body : Option J) (t : Transport) (resp : HttpResponse)
    (ht : t (doRequestBuild c ctx m url body) = .ok resp) :
    ((∃ e, doRequestWithContext c ctx m url body t = .error e) ↔ resp.statusCode ≥ 400) ∧
    (resp.statusCode ≥ 400 →
      doRequestWithContext c ctx m url body t =
        .error ("API error (status " ++ toString resp.statusCode ++ "): " ++ resp.body)) ∧
    (resp.statusCode < 400 →
      doRequestWithContext c ctx m url body t = .ok resp.body) := by
  have hstep : doRequestWithContext c ctx m url body t = handleResponse resp := by
    unfold doRequestWithContext
    rw [ht]
  rw [hstep]
  unfold handleResponse
  by_cases h4 : resp.statusCode ≥ 400
  · rw [if_pos h4]
    exact ⟨⟨fun _ => h4, fun _ => ⟨_, rfl⟩⟩, fun _ => rfl, fun hlt => absurd h4 (by omega)⟩
  · rw [if_neg h4]
    refine ⟨⟨fun hex => ?_, fun hge => absurd hge h4⟩,
      fun hge => absurd hge h4, fun _ => rfl⟩
    obtain ⟨e, he⟩ := hex
    cases he

theorem gateway_error_iff_status_ge_400_witness :
    doRequestWithContext witnessClient Context.background .get
        "https://api.pagerduty.com/users" none witnessTransport =
      .error "API error (status 404): not found" := by
  have h := gateway_error_iff_status_ge_400 witnessClient Context.background .get
    "https://api.pagerduty.com/users" none witnessTransport ⟨404, "not found"⟩ rfl
  have h2 := h.2.1 (by norm_num)
  rw [h2]
  rfl

/-! ## C7: the auth middleware's outcome taxonomy -/

/-- C7: for non-`/health` requests, a missing Authorization header yields
401 with the `Authorization header required` body for every authorizer
(the authorizer is not consulted); an authorizer failure yields 500; an
authorizer denial yields 401; and under the default `MockAuthorizer` any
non-empty header forwards the request into JSON-RPC processing. The
500-class and 401-class outcomes are distinct in both status and body. -/
theorem middleware_outcome_taxonomy :
    (∀ (a : Authorizer) (r : InboundRequest), r.path ≠ "/health" →
      r.authorizationHeader = "" → Middleware a r = .respond 401 authRequiredBody) ∧
    (∀ (a : Authorizer) (r : InboundRequest) (e : String), r.path ≠ "/health" →
      r.authorizationHeader ≠ "" → a r.authorizationHeader = .error e →
      Middleware a r = .respond 500 authFailedBody) ∧
    (∀ (a : Authorizer) (r : InboundRequest), r.path ≠ "/health" →
      r.authorizationHeader ≠ "" → a r.authorizationHeader = .ok false →
      Middleware a r = .respond 401 unauthorizedBody) ∧
    (∀ r : InboundRequest, r.path ≠ "/health" → r.method = .post →
      r.authorizationHeader ≠ "" →
      serveHTTP MockAuthorizer r =
        .rpcHandled (if r.pdTokenHeader ≠ "" then some r.pdTokenHeader
          else Context.background)) ∧
    ((500 : Nat) ≠ 401 ∧ authFailedBody ≠ unauthorizedBody ∧
      authFailedBody ≠ authRequiredBody) := by
  refine ⟨?_, ?_, ?_, ?_, by norm_num, by decide, by decide⟩
  · intro a r hp hh
    unfold Middleware
    rw [if_neg hp, if_pos hh]
  · intro a r e hp hh he
    unfold Middleware
    rw [if_neg hp, if_neg hh, he]
  · intro a r hp hh hd
    unfold Middleware
    rw [if_neg hp, if_neg hh, hd]
  · intro r hp hm hh
    unfold serveHTTP Middleware
    rw [if_neg hp, if_neg hh]
    show (if r.path = "/health" then handleHealth r else _) = _
    rw [if_neg hp]
    unfold handleJSONRPC
    rw [hm]
    simp only [ne_eq, not_true_eq_false, if_neg, reduceIte]

theorem middleware_outcome_taxonomy_witness :
    Middleware MockAuthorizer ⟨.post, "/", "", ""⟩ = .respond 401 authRequiredBody ∧
    Middleware failingAuthorizer ⟨.post, "/", "Bearer t", ""⟩ = .respond 500 authFailedBody ∧
    Middleware denyingAuthorizer ⟨.post, "/", "Bearer t", ""⟩ = .respond 401 unauthorizedBody ∧
    serveHTTP MockAuthorizer ⟨.post, "/", "Bearer t", ""⟩ = .rpcHandled Context.background := by
  refine ⟨?_, ?_, ?_, ?_⟩
  · exact middleware_outcome_taxonomy.1 MockAuthorizer _ (by decide) rfl
  · exact middleware_outcome_taxonomy.2.1 failingAuthorizer _ "auth backend down"
      (by decide) (by decide) rfl
  · exact middleware_outcome_taxonomy.2.2.1 denyingAuthorizer _
      (by decide) (by decide) rfl
  · have h := middleware_outcome_taxonomy.2.2.2.1 ⟨.post, "/", "Bearer t", ""⟩
      (by decide) rfl (by decide)
    simpa using h

/-! ## C8: the health endpoint needs no credentials -/

/-- C8: the middleware forwards every `/health` request untouched (with a
background context), and a GET `/health` with no Authorization header
returns 200 with status `ok` and the non-empty server version, for every
authorizer. -/
theorem health_endpoint_always_ok :
    (∀ (a : Authorizer) (r : InboundRequest), r.path = "/health" →
      Middleware a r = .forward Context.background) ∧
    (∀ (a : Authorizer) (pd : String),
      serveHTTP a ⟨.get, "/health", "", pd⟩ = .health 200 ⟨"ok", ServerVersion⟩) ∧
    ServerVersion ≠ "" := by
  refine ⟨?_, fun a pd => rfl, by decide⟩
  intro a r hp
  unfold Middleware
  rw [if_pos hp]

theorem health_endpoint_always_ok_witness :
    Middleware MockAuthorizer ⟨.get, "/health", "", ""⟩ = .forward Context.background ∧
    serveHTTP MockAuthorizer ⟨.get, "/health", "", ""⟩ = .health 200 ⟨"ok", "0.1.0"⟩ := by
  exact ⟨health_endpoint_always_ok.1 MockAuthorizer _ rfl,
    health_endpoint_always_ok.2.1 MockAuthorizer ""⟩

/-! ## C9: the pagination loop -/

theorem not_stop_shape {b : Backend} {m : Int} {offset : Nat} {tf : Int}
    (h : stopsAt b m offset tf = false) :
    ∃ c, b offset = .page (.ok c) (some true) ∧ ¬(m > 0 ∧ tf + c ≥ m) := by
  unfold stopsAt at h
  cases hb : b offset with
  | getErr e => rw [hb] at h; cases h
  | page hr more? =>
    rw [hb] at h
    cases hr with
    | error e => cases h
    | ok c =>
      simp only [Bool.or_eq_false_iff, Bool.and_eq_false_iff, bne_eq_false_iff_eq,
        decide_eq_false_iff_not] at h
      obtain ⟨hbud, hmore⟩ := h
      subst hmore
      refine ⟨c, rfl, ?_⟩
      rcases hbud with h1 | h2
      · exact fun hc => h1 hc.1
      · exact fun hc => h2 hc.2

theorem stop_shape_step {b : Backend} {m : Int} {offset : Nat} {tf : Int} {fuel : Nat}
    (hstop : stopsAt b m offset tf = true) :
    paginateLoop b m (fuel + 1) offset tf =
      ⟨[offset], stopCallbacks (b offset), some (stopResult (b offset))⟩ := by
  unfold stopsAt at hstop
  cases hb : b offset with
  | getErr e => simp [paginateLoop, hb, stopCallbacks, stopResult]
  | page hr more? =>
    rw [hb] at hstop
    cases hr with
    | error e => simp [paginateLoop, hb, stopCallbacks, stopResult]
    | ok c =>
      simp only [Bool.or_eq_true, Bool.and_eq_true, decide_eq_true_eq, bne_iff_ne] at hstop
      simp only [paginateLoop, hb, stopCallbacks, stopResult]
      rcases hstop with ⟨h1, h2⟩ | hmore
      · rw [if_pos ⟨h1, h2⟩]
      · by_cases hbud : m > 0 ∧ tf + c ≥ m
        · rw [if_pos hbud]
        · rw [if_neg hbud]
          cases more? with
          | none => rfl
          | some bv =>
            cases bv with
            | true => exact absurd rfl hmore
            | false => rfl

theorem paginateLoop_spec (b : Backend) (m : Int) :
    ∀ (k offset : Nat) (tf : Int) (fuel : Nat), k < fuel →
      (∀ j < k, stopsAt b m (((nextState b)^[j] (offset, tf)).1)
        (((nextState b)^[j] (offset, tf)).2) = false) →
      stopsAt b m (((nextState b)^[k] (offset, tf)).1)
        (((nextState b)^[k] (offset, tf)).2) = true →
      paginateLoop b m fuel offset tf =
        ⟨(List.range (k + 1)).map (fun i => offset + 100 * i),
         k + stopCallbacks (b (((nextState b)^[k] (offset, tf)).1)),
         some (stopResult (b (((nextState b)^[k] (offset, tf)).1)))⟩ := by
  intro k
  induction k with
  | zero =>
    intro offset tf fuel hfuel hmin hstop
    obtain ⟨f, rfl⟩ : ∃ f, fuel = f + 1 := ⟨fuel - 1, by omega⟩
    simp only [Function.iterate_zero_apply] at hstop
    rw [stop_shape_step hstop]
    have h1 : (List.range (0 + 1)).map (fun i => offset + 100 * i) = [offset] := by
      simp [List.range_succ]
    rw [h1, Nat.zero_add]
    simp only [Function.iterate_zero_apply]
  | succ k ih =>
    intro offset tf fuel hfuel hmin hstop
    obtain ⟨f, rfl⟩ : ∃ f, fuel = f + 1 := ⟨fuel - 1, by omega⟩
    have hnot0 := hmin 0 (by omega)
    simp only [Function.iterate_zero_apply] at hnot0
    obtain ⟨c, hb, hbud⟩ := not_stop_shape hnot0
    have hnext : nextState b (offset, tf) = (offset + 100, tf + c) := by
      unfold nextState
      rw [hb]
    have hshift : ∀ j, (nextState b)^[j] (offset + 100, tf + c) =
        (nextState b)^[j + 1] (offset, tf) := by
      intro j
      rw [Function.iterate_succ_apply, hnext]
    have hmin' : ∀ j < k, stopsAt b m
        (((nextState b)^[j] (offset + 100, tf + c)).1)
        (((nextState b)^[j] (offset + 100, tf + c)).2) = false := by
      intro j hj
      rw [hshift j]
      exact hmin (j + 1) (by omega)
    have hstop' : stopsAt b m (((nextState b)^[k] (offset + 100, tf + c)).1)
        (((nextState b)^[k] (offset + 100, tf + c)).2) = true := by
      rw [hshift k]
      exact hstop
    have hrec := ih (offset + 100) (tf + c) f (by omega) hmin' hstop'
    have hstep : paginateLoop b m (f + 1) offset tf =
        ⟨offset :: (paginateLoop b m f (offset + 100) (tf + c)).offsets,
         (paginateLoop b m f (offset + 100) (tf + c)).callbacks + 1,
         (paginateLoop b m f (offset + 100) (tf + c)).result⟩ := by
      simp only [paginateLoop, hb]
      rw [if_neg hbud]
    have hoffsets : offset :: (List.range (k + 1)).map (fun i => offset + 100 + 100 * i) =
        (List.range (k + 1 + 1)).map (fun i => offset + 100 * i) := by
      conv_rhs => rw [List.range_succ_eq_map, List.map_cons, List.map_map]
      refine congrArg₂ List.cons (by omega) ?_
      refine List.map_congr_left ?_
      intro i _
      simp only [Function.comp_apply, Nat.succ_eq_add_one]
      omega
    rw [hstep, hrec]
    dsimp only
    rw [hshift k]
    rw [hoffsets]
    congr 1
    omega

/-- C9: the pagination helper issues its GETs at offsets 0, 100, 200, …
(advancing by the fixed limit 100), invokes the per-page callback once per
fetched page (never for a failed GET), and — whenever iteration `k` is the
first to satisfy a stop condition (GET error, callback error, positive
max-result budget reached by the accumulated callback counts, undecodable
page, or `more` false, which is exactly `stopsAt`) — terminates within
`k + 1` iterations for any sufficient fuel, reporting the error of the
stopping page or normal completion. -/
theorem paginate_offsets_callbacks_termination (b : Backend) (m : Int) (k : Nat)
    (fuel : Nat) (hfuel : k < fuel)
    (hmin : ∀ j < k, stopsAt b m ((iterState b j).1) ((iterState b j).2) = false)
    (hstop : stopsAt b m ((iterState b k).1) ((iterState b k).2) = true) :
    PaginateWithContext b m fuel =
      ⟨(List.range (k + 1)).map (fun i => 100 * i),
       k + stopCallbacks (b ((iterState b k).1)),
       some (stopResult (b ((iterState b k).1)))⟩ := by
  unfold PaginateWithContext
  unfold iterState at hmin hstop
  have h := paginateLoop_spec b m k 0 0 fuel hfuel hmin hstop
  rw [h]
  unfold iterState
  have hmap : (List.range (k + 1)).map (fun i => 0 + 100 * i) =
      (List.range (k + 1)).map (fun i => 100 * i) :=
    List.map_congr_left (fun i _ => by omega)
  rw [hmap]

theorem paginate_witness :
    PaginateWithContext witnessBackend 0 1 = ⟨[0], 1, some none⟩ := by
  have h := paginate_offsets_callbacks_termination witnessBackend 0 0 1 (by omega)
    (by intro j hj; omega) (by rfl)
  simpa using h

/-! ## C4: the bulk manage_incidents payload -/

/-- C4: `manage_incidents` with `incident_ids = "A,B"` and
`status = "acknowledged"` issues exactly one backend PUT to `/incidents`
whose payload's incidents array has exactly two entries, one per id in
order, each carrying `status = "acknowledged"`; and in general the
composite payload maps every id of the batch to an entry carrying the
identical sparse change set. -/
theorem manage_incidents_bulk_update :
    (∀ now : String,
      manageIncidentsHandler now
        [("incident_ids", .str "A,B"), ("status", .str "acknowledged")] =
      .call ⟨.put, "/incidents", [],
        some (J.obj [("incidents", J.arr
          [J.obj [("type", J.str "incident_reference"), ("id", J.str "A"),
                  ("status", J.str "acknowledged")],
           J.obj [("type", J.str "incident_reference"), ("id", J.str "B"),
                  ("status", J.str "acknowledged")]])])⟩) ∧
    (∀ (now : String) (r : IncidentManageRequest), ∃ changes : List (String × J),
      ToAPIPayload now r = J.obj [("incidents", J.arr (r.incidentIDs.map fun id =>
        J.obj (("type", J.str "incident_reference") :: ("id", J.str id) :: changes)))]) := by
  constructor
  · intro now
    rfl
  · intro now r
    exact ⟨_, rfl⟩

/-! ## C5: appending a router rule preserves the fetched state -/

/-- C5: when the GET of the current router returns one rule set with zero
rules, the subsequent PUT body holds that rule set (same id) with exactly
one rule whose `route_to` action is the supplied argument (all other rule
fields at their zero values, since no label or conditions were supplied),
and the fetched `catch_all` configuration is transmitted unchanged. -/
theorem append_router_rule_preserves_catch_all
    (routerGet : String → Except String EventOrchestrationRouter)
    (parseConditions : String → Except String (List EventOrchestrationRuleCondition))
    (oid rt sid : String) (current : EventOrchestrationRouter)
    (hoid : oid ≠ "") (hrt : rt ≠ "")
    (hget : routerGet ("/event_orchestrations/" ++ oid ++ "/router") = .ok current)
    (hsets : current.sets = [⟨sid, []⟩]) :
    appendEventOrchestrationRouterRuleHandler routerGet parseConditions
      [("orchestration_id", .str oid), ("route_to", .str rt)] =
    .call ⟨.put, "/event_orchestrations/" ++ oid ++ "/router", [],
      some (encodeRouterUpdate
        ⟨{ pathType := "",
           sets := [⟨sid, [{ id := "", label := "", conditions := [],
                             actions := { routeTo := rt }, disabled := false }]⟩],
           catchAll := current.catchAll }⟩)⟩ := by
  have h1 : getString [("orchestration_id", .str oid), ("route_to", .str rt)]
      "orchestration_id" = some oid := by
    simp [getString, lookupArg, hoid]
  have h2 : getString [("orchestration_id", .str oid), ("route_to", .str rt)]
      "route_to" = some rt := by
    simp [getString, lookupArg, hrt]
  have h3 : getString [("orchestration_id", .str oid), ("route_to", .str rt)]
      "label" = none := by
    simp [getString, lookupArg]
  have h4 : getString [("orchestration_id", .str oid), ("route_to", .str rt)]
      "conditions" = none := by
    simp [getString, lookupArg]
  unfold appendEventOrchestrationRouterRuleHandler
  rw [reqStr_found _ h1, reqStr_found _ h2, hget]
  simp only [h3, h4, hsets, Option.getD]
  rfl

theorem append_router_rule_preserves_catch_all_witness :
    appendEventOrchestrationRouterRuleHandler witnessRouterGet witnessParseConditions
      [("orchestration_id", .str "E1A2B3C"), ("route_to", .str "PDSVC123")] =
    .call ⟨.put, "/event_orchestrations/E1A2B3C/router", [],
      some (encodeRouterUpdate
        ⟨{ pathType := "",
           sets := [⟨"set-1", [{ id := "", label := "", conditions := [],
                                 actions := { routeTo := "PDSVC123" },
                                 disabled := false }]⟩],
           catchAll := witnessRouter.catchAll }⟩)⟩ := by
  have h := append_router_rule_preserves_catch_all witnessRouterGet witnessParseConditions
    "E1A2B3C" "PDSVC123" "set-1" witnessRouter (by decide) (by decide) rfl rfl
  exact h

/-! ## C10: splitAndTrim on separator-only strings -/

theorem splitAndTrim_foldl (l : List String) :
    ∀ acc : List String,
      l.foldl (fun result p =>
        let trimmed := goTrimSpace p
        if trimmed ≠ "" then result ++ [trimmed] else result) acc =
      acc ++ (l.map goTrimSpace).filter (fun t => t ≠ "") := by
  induction l with
  | nil => intro acc; simp
  | cons x xs ih =>
    intro acc
    rw [List.foldl_cons]
    dsimp only
    by_cases hx : goTrimSpace x = ""
    · rw [if_neg (fun hne => hne hx), ih acc]
      simp [List.filter_cons, hx]
    · rw [if_pos hx, ih (acc ++ [goTrimSpace x])]
      simp [List.filter_cons, hx]

theorem splitAndTrim_eq (s : String) :
    splitAndTrim s = ((goSplitComma s).map goTrimSpace).filter (fun t => t ≠ "") := by
  unfold splitAndTrim
  rw [splitAndTrim_foldl]
  simp

theorem splitCommaAux_ne_nil (l : List Char) : splitCommaAux l ≠ [] := by
  induction l with
  | nil => simp [splitCommaAux]
  | cons c rest ih =>
    unfold splitCommaAux
    rcases h : splitCommaAux rest with _ | ⟨seg, segs⟩
    · exact absurd h ih
    · by_cases hc : c = ',' <;> simp [hc]

theorem splitCommaAux_space {l : List Char}
    (h : ∀ ch ∈ l, ch = ',' ∨ goIsSpace ch = true) :
    ∀ seg ∈ splitCommaAux l, ∀ ch ∈ seg, goIsSpace ch = true := by
  induction l with
  | nil =>
    intro seg hseg ch hch
    simp [splitCommaAux] at hseg
    subst hseg
    exact absurd hch (List.not_mem_nil ch)
  | cons c rest ih =>
    intro seg hseg ch hch
    have hrest : ∀ ch ∈ rest, ch = ',' ∨ goIsSpace ch = true :=
      fun ch hm => h ch (List.mem_cons_of_mem _ hm)
    unfold splitCommaAux at hseg
    rcases hsplit : splitCommaAux rest with _ | ⟨seg0, segs⟩
    · exact absurd hsplit (splitCommaAux_ne_nil rest)
    · rw [hsplit] at hseg
      dsimp only at hseg
      by_cases hc : c = ','
      · rw [if_pos hc] at hseg
        rcases List.mem_cons.mp hseg with rfl | h2
        · exact absurd hch (List.not_mem_nil ch)
        · exact ih hrest seg (by rw [hsplit]; exact h2) ch hch
      · rw [if_neg hc] at hseg
        have hcs : goIsSpace c = true := by
          rcases h c (List.mem_cons_self c rest) with h1 | h1
          · exact absurd h1 hc
          · exact h1
        rcases List.mem_cons.mp hseg with rfl | h2
        · rcases List.mem_cons.mp hch with rfl | hch0
          · exact hcs
          · exact ih hrest seg0 (by rw [hsplit]; exact List.mem_cons_self seg0 segs)
              ch hch0
        · exact ih hrest seg (by rw [hsplit]; exact List.mem_cons_of_mem seg0 h2) ch hch

theorem dropWhile_all {p : Char → Bool} :
    ∀ l : List Char, (∀ ch ∈ l, p ch = true) → l.dropWhile p = [] := by
  intro l
  induction l with
  | nil => intro; rfl
  | cons c xs ih =>
    intro h
    rw [List.dropWhile_cons, h c (List.mem_cons_self c xs)]
    simp only [if_true]
    exact ih fun ch hm => h ch (List.mem_cons_of_mem _ hm)

theorem trimSpaceList_all_space {l : List Char}
    (h : ∀ ch ∈ l, goIsSpace ch = true) : trimSpaceList l = [] := by
  unfold trimSpaceList
  rw [dropWhile_all l h]
  rfl

theorem splitAndTrim_all_sep_empty {s : String}
    (h : ∀ ch ∈ s.data, ch = ',' ∨ goIsSpace ch = true) : splitAndTrim s = [] := by
  rw [splitAndTrim_eq]
  rw [List.filter_eq_nil_iff]
  intro t ht
  obtain ⟨seg, hseg, rfl⟩ := List.mem_map.mp ht
  unfold goSplitComma at hseg
  obtain ⟨segl, hsegl, rfl⟩ := List.mem_map.mp hseg
  have hsp := splitCommaAux_space h segl hsegl
  have htrim : trimSpaceList segl = [] := trimSpaceList_all_space hsp
  simp [goTrimSpace, htrim]

/-- C10: a non-empty string made up only of commas and white space passes
the required-parameter check (`getString` accepts it), yet `splitAndTrim`
returns the empty list — so `manage_incidents` on such an `incident_ids`
value returns no argument error and issues a PUT whose incidents array is
empty. In general `splitAndTrim` returns exactly the non-empty trimmed
comma-separated segments of its input, in order. -/
theorem splitAndTrim_separator_only :
    (∀ s : String, s ≠ "" → (∀ ch ∈ s.data, ch = ',' ∨ goIsSpace ch = true) →
      getString [("incident_ids", .str s)] "incident_ids" = some s ∧
        splitAndTrim s = []) ∧
    (∀ now : String, manageIncidentsHandler now [("incident_ids", .str ", ,")] =
      .call ⟨.put, "/incidents", [], some (J.obj [("incidents", J.arr [])])⟩) ∧
    (∀ s : String, splitAndTrim s =
      ((goSplitComma s).map goTrimSpace).filter (fun t => t ≠ "")) := by
  refine ⟨?_, ?_, splitAndTrim_eq⟩
  · intro s hs hch
    refine ⟨?_, splitAndTrim_all_sep_empty hch⟩
    simp [getString, lookupArg, hs]
  · intro now
    rfl

theorem splitAndTrim_separator_only_witness :
    getString [("incident_ids", .str ", ,")] "incident_ids" = some ", ," ∧
    splitAndTrim ", ," = [] := by
  exact splitAndTrim_separator_only.1 ", ," (by decide) (by decide)

/-! ## C3: the argument-validation contract

Soundness of the optional-parameter combinators: anything a handler
forwards (a query parameter or an optional payload field) originates from
a successful extraction — a present non-empty string, a present number, or
a present true boolean. -/

theorem pContrib_sound {args : Args} {s : PSpec} {k v : String}
    (h : (k, v) ∈ pContrib args s) :
    k = s.reqKey ∧
      ((∃ w, getString args s.argKey = some w ∧ w ≠ "" ∧ v = w) ∨
       (∃ n, getNumber args s.argKey = some n ∧ v = toString n) ∨
       (getBool args s.argKey = some true ∧ v = "true")) := by
  obtain ⟨ak, rk, kind⟩ := s
  cases kind with
  | str =>
    dsimp only [pContrib] at h
    cases hg : getString args ak with
    | none => rw [hg] at h; exact absurd h (List.not_mem_nil _)
    | some w =>
      rw [hg] at h
      simp only [List.mem_singleton, Prod.mk.injEq] at h
      exact ⟨h.1, Or.inl ⟨w, rfl, getString_ne_empty hg, h.2⟩⟩
  | num =>
    dsimp only [pContrib] at h
    cases hg : getNumber args ak with
    | none => rw [hg] at h; exact absurd h (List.not_mem_nil _)
    | some n =>
      rw [hg] at h
      simp only [List.mem_singleton, Prod.mk.injEq] at h
      exact ⟨h.1, Or.inr (Or.inl ⟨n, rfl, h.2⟩)⟩
  | boolTrue =>
    dsimp only [pContrib] at h
    cases hg : getBool args ak with
    | none => rw [hg] at h; exact absurd h (List.not_mem_nil _)
    | some b =>
      rw [hg] at h
      cases b with
      | false => exact absurd h (List.not_mem_nil _)
      | true =>
        simp only [List.mem_singleton, Prod.mk.injEq] at h
        exact ⟨h.1, Or.inr (Or.inr ⟨rfl, h.2⟩)⟩

theorem buildParams_sound {args : Args} {k v : String} :
    ∀ {specs : List PSpec}, (k, v) ∈ buildParams args specs →
      ∃ s ∈ specs, k = s.reqKey ∧
        ((∃ w, getString args s.argKey = some w ∧ w ≠ "" ∧ v = w) ∨
         (∃ n, getNumber args s.argKey = some n ∧ v = toString n) ∨
         (getBool args s.argKey = some true ∧ v = "true")) := by
  intro specs
  induction specs with
  | nil => intro h; exact absurd h (List.not_mem_nil _)
  | cons s rest ih =>
    intro h
    rcases List.mem_append.mp h with h1 | h2
    · exact ⟨s, List.mem_cons_self s rest, pContrib_sound h1⟩
    · obtain ⟨s', hs', hp⟩ := ih h2
      exact ⟨s', List.mem_cons_of_mem _ hs', hp⟩

theorem optFieldVia_sound {args : Args} {ak jk : String} {f : String → J}
    {k : String} {j : J} (h : (k, j) ∈ optFieldVia args ak jk f) :
    k = jk ∧ ∃ w, getString args ak = some w ∧ w ≠ "" ∧ j = f w := by
  unfold optFieldVia at h
  cases hg : getString args ak with
  | none => rw [hg] at h; exact absurd h (List.not_mem_nil _)
  | some w =>
    rw [hg] at h
    simp only [List.mem_singleton, Prod.mk.injEq] at h
    exact ⟨h.1, w, rfl, getString_ne_empty hg, h.2⟩

theorem optNumNZField_sound {args : Args} {ak jk : String} {k : String} {j : J}
    (h : (k, j) ∈ optNumNZField args ak jk) :
    k = jk ∧ ∃ n, getNumber args ak = some n ∧ n ≠ 0 ∧ j = J.num n := by
  unfold optNumNZField at h
  cases hg : getNumber args ak with
  | none => rw [hg] at h; exact absurd h (List.not_mem_nil _)
  | some n =>
    rw [hg] at h
    dsimp only at h
    by_cases hn : n ≠ 0
    · rw [if_pos hn] at h
      simp only [List.mem_singleton, Prod.mk.injEq] at h
      exact ⟨h.1, n, rfl, hn, h.2⟩
    · rw [if_neg hn] at h
      exact absurd h (List.not_mem_nil _)

theorem optBoolTrueField_sound {args : Args} {ak jk : String} {k : String} {j : J}
    (h : (k, j) ∈ optBoolTrueField args ak jk) :
    k = jk ∧ getBool args ak = some true ∧ j = J.bool true := by
  unfold optBoolTrueField at h
  cases hg : getBool args ak with
  | none => rw [hg] at h; exact absurd h (List.not_mem_nil _)
  | some b =>
    rw [hg] at h
    cases b with
    | false => exact absurd h (List.not_mem_nil _)
    | true =>
      simp only [List.mem_singleton, Prod.mk.injEq] at h
      exact ⟨h.1, rfl, h.2⟩

/-- C3: the argument-validation contract of every tool handler. The first
four conjuncts say that anything a handler forwards — a query parameter
built by `buildParams` or an optional payload field built by the optional
field combinators — originates from an argument that is present (and, for
strings, non-empty): optional parameters are forwarded only when present
with a non-empty value. The remaining conjuncts enumerate every handler
and every required parameter: a call whose argument map lacks that
parameter (or binds it to a non-string or empty string), the earlier
required parameters being present, yields the tool-level error result
naming the parameter — by construction an `Action.toolError`, never a
protocol-level fault. -/
theorem handlers_argument_validation :
    (∀ (args : Args) (specs : List PSpec) (k v : String),
      (k, v) ∈ buildParams args specs →
      ∃ s ∈ specs, k = s.reqKey ∧
        ((∃ w, getString args s.argKey = some w ∧ w ≠ "" ∧ v = w) ∨
         (∃ n, getNumber args s.argKey = some n ∧ v = toString n) ∨
         (getBool args s.argKey = some true ∧ v = "true"))) ∧
    (∀ (args : Args) (ak jk : String) (f : String → J) (k : String) (j : J),
      (k, j) ∈ optFieldVia args ak jk f →
      k = jk ∧ ∃ w, getString args ak = some w ∧ w ≠ "" ∧ j = f w) ∧
    (∀ (args : Args) (ak jk : String) (k : String) (j : J),
      (k, j) ∈ optNumNZField args ak jk →
      k = jk ∧ ∃ n, getNumber args ak = some n ∧ n ≠ 0 ∧ j = J.num n) ∧
    (∀ (args : Args) (ak jk : String) (k : String) (j : J),
      (k, j) ∈ optBoolTrueField args ak jk →
      k = jk ∧ getBool args ak = some true ∧ j = J.bool true) ∧
    requiredFirst getIncidentHandler "incident_id" ∧
    requiredFirst getOutlierIncidentHandler "incident_id" ∧
    requiredFirst getPastIncidentsHandler "incident_id" ∧
    requiredFirst getRelatedIncidentsHandler "incident_id" ∧
    requiredFirst listIncidentNotesHandler "incident_id" ∧
    requiredFirst getServiceHandler "service_id" ∧
    requiredFirst getTeamHandler "team_id" ∧
    requiredFirst listTeamMembersHandler "team_id" ∧
    requiredFirst getScheduleHandler "schedule_id" ∧
    requiredFirst listScheduleUsersHandler "schedule_id" ∧
    requiredFirst getEscalationPolicyHandler "escalation_policy_id" ∧
    requiredFirst getEventOrchestrationHandler "orchestration_id" ∧
    requiredFirst getEventOrchestrationRouterHandler "orchestration_id" ∧
    requiredFirst getEventOrchestrationGlobalHandler "orchestration_id" ∧
    requiredFirst getEventOrchestrationServiceHandler "service_id" ∧
    requiredFirst getIncidentWorkflowHandler "workflow_id" ∧
    requiredFirst getChangeEventHandler "change_event_id" ∧
    requiredFirst listServiceChangeEventsHandler "service_id" ∧
    requiredFirst listIncidentChangeEventsHandler "incident_id" ∧
    requiredFirst getAlertGroupingSettingHandler "setting_id" ∧
    requiredFirst listStatusPageSeveritiesHandler "status_page_id" ∧
    requiredFirst listStatusPageImpactsHandler "status_page_id" ∧
    requiredFirst listStatusPageStatusesHandler "status_page_id" ∧
    requiredFirst getStatusPagePostHandler "status_page_id" ∧
    requiredSecond getStatusPagePostHandler "status_page_id" "post_id" ∧
    requiredFirst listStatusPagePostUpdatesHandler "status_page_id" ∧
    requiredSecond listStatusPagePostUpdatesHandler "status_page_id" "post_id" ∧
    requiredFirst createIncidentHandler "title" ∧
    requiredSecond createIncidentHandler "title" "service_id" ∧
    requiredFirst addRespondersHandler "incident_id" ∧
    requiredSecond addRespondersHandler "incident_id" "responder_ids" ∧
    requiredFirst addNoteToIncidentHandler "incident_id" ∧
    requiredSecond addNoteToIncidentHandler "incident_id" "note" ∧
    requiredFirst createServiceHandler "name" ∧
    requiredSecond createServiceHandler "name" "escalation_policy_id" ∧
    requiredFirst updateServiceHandler "service_id" ∧
    requiredFirst createTeamHandler "name" ∧
    requiredFirst updateTeamHandler "team_id" ∧
    requiredFirst deleteTeamHandler "team_id" ∧
    requiredFirst addTeamMemberHandler "team_id" ∧
    requiredSecond addTeamMemberHandler "team_id" "user_id" ∧
    requiredFirst removeTeamMemberHandler "team_id" ∧
    requiredSecond removeTeamMemberHandler "team_id" "user_id" ∧
    requiredFirst createScheduleHandler "name" ∧
    requiredSecond createScheduleHandler "name" "time_zone" ∧
    requiredFirst createScheduleOverrideHandler "schedule_id" ∧
    requiredSecond createScheduleOverrideHandler "schedule_id" "user_id" ∧
    requiredThird createScheduleOverrideHandler "schedule_id" "user_id" "start" ∧
    requiredFourth createScheduleOverrideHandler "schedule_id" "user_id" "start" "end" ∧
    requiredFirst updateScheduleHandler "schedule_id" ∧
    requiredFirst startIncidentWorkflowHandler "workflow_id" ∧
    requiredSecond startIncidentWorkflowHandler "workflow_id" "incident_id" ∧
    requiredFirst createAlertGroupingSettingHandler "name" ∧
    requiredSecond createAlertGroupingSettingHandler "name" "service_ids" ∧
    requiredThird createAlertGroupingSettingHandler "name" "service_ids" "type" ∧
    requiredFirst updateAlertGroupingSettingHandler "setting_id" ∧
    requiredFirst deleteAlertGroupingSettingHandler "setting_id" ∧
    requiredFirst createStatusPagePostHandler "status_page_id" ∧
    requiredSecond createStatusPagePostHandler "status_page_id" "post_type" ∧
    requiredThird createStatusPagePostHandler "status_page_id" "post_type" "title" ∧
    requiredFirst createStatusPagePostUpdateHandler "status_page_id" ∧
    requiredSecond createStatusPagePostUpdateHandler "status_page_id" "post_id" ∧
    requiredThird createStatusPagePostUpdateHandler "status_page_id" "post_id" "message" ∧
    (∀ now : String, requiredFirst (manageIncidentsHandler now) "incident_ids") ∧
    (∀ parseConfig : String → Except String EventOrchestrationRouterUpdateRequest, requiredFirst (updateEventOrchestrationRouterHandler parseConfig) "orchestration_id") ∧
    (∀ parseConfig : String → Except String EventOrchestrationRouterUpdateRequest, requiredSecond (updateEventOrchestrationRouterHandler parseConfig) "orchestration_id" "config") ∧
    (∀ (routerGet : String → Except String EventOrchestrationRouter) (parseConditions : String → Except String (List EventOrchestrationRuleCondition)), requiredFirst (appendEventOrchestrationRouterRuleHandler routerGet parseConditions) "orchestration_id") ∧
    (∀ (routerGet : String → Except String EventOrchestrationRouter) (parseConditions : String → Except String (List EventOrchestrationRuleCondition)), requiredSecond (appendEventOrchestrationRouterRuleHandler routerGet parseConditions) "orchestration_id" "route_to") := by
  exact ⟨
    (fun _ _ _ _ h => buildParams_sound h),
    (fun _ _ _ _ _ _ h => optFieldVia_sound h),
    (fun _ _ _ _ _ h => optNumNZField_sound h),
    (fun _ _ _ _ _ h => optBoolTrueField_sound h),
    (fun args h1 => by unfold getIncidentHandler; exact reqStr_missing _ h1),
    (fun args h1 => by unfold getOutlierIncidentHandler; exact reqStr_missing _ h1),
    (fun args h1 => by unfold getPastIncidentsHandler; exact reqStr_missing _ h1),
    (fun args h1 => by unfold getRelatedIncidentsHandler; exact reqStr_missing _ h1),
    (fun args h1 => by unfold listIncidentNotesHandler; exact reqStr_missing _ h1),
    (fun args h1 => by unfold getServiceHandler; exact reqStr_missing _ h1),
    (fun args h1 => by unfold getTeamHandler; exact reqStr_missing _ h1),
    (fun args h1 => by unfold listTeamMembersHandler; exact reqStr_missing _ h1),
    (fun args h1 => by unfold getScheduleHandler; exact reqStr_missing _ h1),
    (fun args h1 => by unfold listScheduleUsersHandler; exact reqStr_missing _ h1),
    (fun args h1 => by unfold getEscalationPolicyHandler; exact reqStr_missing _ h1),
    (fun args h1 => by unfold getEventOrchestrationHandler; exact reqStr_missing _ h1),
    (fun args h1 => by unfold getEventOrchestrationRouterHandler; exact reqStr_missing _ h1),
    (fun args h1 => by unfold getEventOrchestrationGlobalHandler; exact reqStr_missing _ h1),
    (fun args h1 => by unfold getEventOrchestrationServiceHandler; exact reqStr_missing _ h1),
    (fun args h1 => by unfold getIncidentWorkflowHandler; exact reqStr_missing _ h1),
    (fun args h1 => by unfold getChangeEventHandler; exact reqStr_missing _ h1),
    (fun args h1 => by unfold listServiceChangeEventsHandler; exact reqStr_missing _ h1),
    (fun args h1 => by unfold listIncidentChangeEventsHandler; exact reqStr_missing _ h1),
    (fun args h1 => by unfold getAlertGroupingSettingHandler; exact reqStr_missing _ h1),
    (fun args h1 => by unfold listStatusPageSeveritiesHandler; exact reqStr_missing _ h1),
    (fun args h1 => by unfold listStatusPageImpactsHandler; exact reqStr_missing _ h1),
    (fun args h1 => by unfold listStatusPageStatusesHandler; exact reqStr_missing _ h1),
    (fun args h1 => by unfold getStatusPagePostHandler; exact reqStr_missing _ h1),
    (fun args v1 h1 h2 => by unfold getStatusPagePostHandler; rw [reqStr_found _ h1]; exact reqStr_missing _ h2),
    (fun args h1 => by unfold listStatusPagePostUpdatesHandler; exact reqStr_missing _ h1),
    (fun args v1 h1 h2 => by unfold listStatusPagePostUpdatesHandler; rw [reqStr_found _ h1]; exact reqStr_missing _ h2),
    (fun args h1 => by unfold createIncidentHandler; exact reqStr_missing _ h1),
    (fun args v1 h1 h2 => by unfold createIncidentHandler; rw [reqStr_found _ h1]; exact reqStr_missing _ h2),
    (fun args h1 => by unfold addRespondersHandler; exact reqStr_missing _ h1),
    (fun args v1 h1 h2 => by unfold addRespondersHandler; rw [reqStr_found _ h1]; exact reqStr_missing _ h2),
    (fun args h1 => by unfold addNoteToIncidentHandler; exact reqStr_missing _ h1),
    (fun args v1 h1 h2 => by unfold addNoteToIncidentHandler; rw [reqStr_found _ h1]; exact reqStr_missing _ h2),
    (fun args h1 => by unfold createServiceHandler; exact reqStr_missing _ h1),
    (fun args v1 h1 h2 => by unfold createServiceHandler; rw [reqStr_found _ h1]; exact reqStr_missing _ h2),
    (fun args h1 => by unfold updateServiceHandler; exact reqStr_missing _ h1),
    (fun args h1 => by unfold createTeamHandler; exact reqStr_missing _ h1),
    (fun args h1 => by unfold updateTeamHandler; exact reqStr_missing _ h1),
    (fun args h1 => by unfold deleteTeamHandler; exact reqStr_missing _ h1),
    (fun args h1 => by unfold addTeamMemberHandler; exact reqStr_missing _ h1),
    (fun args v1 h1 h2 => by unfold addTeamMemberHandler; rw [reqStr_found _ h1]; exact reqStr_missing _ h2),
    (fun args h1 => by unfold removeTeamMemberHandler; exact reqStr_missing _ h1),
    (fun args v1 h1 h2 => by unfold removeTeamMemberHandler; rw [reqStr_found _ h1]; exact reqStr_missing _ h2),
    (fun args h1 => by unfold createScheduleHandler; exact reqStr_missing _ h1),
    (fun args v1 h1 h2 => by unfold createScheduleHandler; rw [reqStr_found _ h1]; exact reqStr_missing _ h2),
    (fun args h1 => by unfold createScheduleOverrideHandler; exact reqStr_missing _ h1),
    (fun args v1 h1 h2 => by unfold createScheduleOverrideHandler; rw [reqStr_found _ h1]; exact reqStr_missing _ h2),
    (fun args v1 v2 h1 h2 h3 => by unfold createScheduleOverrideHandler; rw [reqStr_found _ h1, reqStr_found _ h2]; exact reqStr_missing _ h3),
    (fun args v1 v2 v3 h1 h2 h3 h4 => by unfold createScheduleOverrideHandler; rw [reqStr_found _ h1, reqStr_found _ h2, reqStr_found _ h3]; exact reqStr_missing _ h4),
    (fun args h1 => by unfold updateScheduleHandler; exact reqStr_missing _ h1),
    (fun args h1 => by unfold startIncidentWorkflowHandler; exact reqStr_missing _ h1),
    (fun args v1 h1 h2 => by unfold startIncidentWorkflowHandler; rw [reqStr_found _ h1]; exact reqStr_missing _ h2),
    (fun args h1 => by unfold createAlertGroupingSettingHandler; exact reqStr_missing _ h1),
    (fun args v1 h1 h2 => by unfold createAlertGroupingSettingHandler; rw [reqStr_found _ h1]; exact reqStr_missing _ h2),
    (fun args v1 v2 h1 h2 h3 => by unfold createAlertGroupingSettingHandler; rw [reqStr_found _ h1, reqStr_found _ h2]; exact reqStr_missing _ h3),
    (fun args h1 => by unfold updateAlertGroupingSettingHandler; exact reqStr_missing _ h1),
    (fun args h1 => by unfold deleteAlertGroupingSettingHandler; exact reqStr_missing _ h1),
    (fun args h1 => by unfold createStatusPagePostHandler; exact reqStr_missing _ h1),
    (fun args v1 h1 h2 => by unfold createStatusPagePostHandler; rw [reqStr_found _ h1]; exact reqStr_missing _ h2),
    (fun args v1 v2 h1 h2 h3 => by unfold createStatusPagePostHandler; rw [reqStr_found _ h1, reqStr_found _ h2]; exact reqStr_missing _ h3),
    (fun args h1 => by unfold createStatusPagePostUpdateHandler; exact reqStr_missing _ h1),
    (fun args v1 h1 h2 => by unfold createStatusPagePostUpdateHandler; rw [reqStr_found _ h1]; exact reqStr_missing _ h2),
    (fun args v1 v2 h1 h2 h3 => by unfold createStatusPagePostUpdateHandler; rw [reqStr_found _ h1, reqStr_found _ h2]; exact reqStr_missing _ h3),
    (fun now args h1 => by unfold manageIncidentsHandler; exact reqStr_missing _ h1),
    (fun parseConfig args h1 => by unfold updateEventOrchestrationRouterHandler; exact reqStr_missing _ h1),
    (fun parseConfig args v1 h1 h2 => by unfold updateEventOrchestrationRouterHandler; rw [reqStr_found _ h1]; exact reqStr_missing _ h2),
    (fun routerGet parseConditions args h1 => by unfold appendEventOrchestrationRouterRuleHandler; exact reqStr_missing _ h1),
    (fun routerGet parseConditions args v1 h1 h2 => by unfold appendEventOrchestrationRouterRuleHandler; rw [reqStr_found _ h1]; exact reqStr_missing _ h2)⟩

/-- C3 counterexample to the claim as stated: `get_status_page_post`
requires both `status_page_id` and `post_id`; a call lacking both (the
empty argument map lacks `post_id`) returns the tool-level error naming
`status_page_id` — a message in which `post_id` does not occur at all. So
"a call whose argument map lacks P returns an error naming P" fails for
P = `post_id` unless the earlier required parameters are present. -/
theorem missing_param_error_names_first_missing :
    getStatusPagePostHandler [] = .toolError "status_page_id is required" ∧
    ¬ ("post_id".data <:+: "status_page_id is required".data) := by
  exact ⟨rfl, by decide⟩

theorem handlers_argument_validation_witness :
    getIncidentHandler [] = .toolError "incident_id is required" := by
  have h := handlers_argument_validation
  exact h.2.2.2.2.1 [] rfl

end PD
